import Mathlib

/-!
# Cloud-Monitoring-System: metrics aggregation and alert ledger

A shallow embedding of `backend/controllers/metricsController.js`,
`backend/controllers/usersController.js` and the two Mongoose schemas they
query (`models/Metric.js`, `models/Alert.js`).

Modelling conventions
* A collection is a `List` of documents in natural (insertion) order.
* A `Date` is its time value: an `Int` number of milliseconds since the epoch.
* A JavaScript `Number` stored in a document is an exact rational (`ℚ`);
  binary floating-point rounding of sums and quotients is not modelled.
* An `ObjectId` is a `Nat`; `req.params.id` is taken after its cast to an
  ObjectId.
* A query-string parameter is an `Option String` (`none` = `undefined`);
  `days` and `limit` are taken after `parseInt`, as an `Int`.
* `$sort` / `.sort()` is a stable insertion sort on the sort key; the theorems
  below use only that its output is an ordered permutation of its input.
* The results of the successive calls of `Math.random()` are a sequence
  `random : Nat → ℚ`; the server's time zone is a parameter.
* A handler is modelled on its success path; `respond` adds the `catch` block
  for a failing store operation.
-/

namespace CloudMonitor

/-! ## Documents -/

/-- A document of the `Metric` collection (`models/Metric.js`). -/
structure Metric where
  userId : Nat
  provider : String
  metricType : String
  value : ℚ
  unit : String
  resourceId : String
  resourceName : String
  timestamp : Int
deriving DecidableEq

/-- A document of the `Alert` collection (`models/Alert.js`). -/
structure Alert where
  _id : Nat
  userId : Nat
  provider : String
  alertType : String
  threshold : ℚ
  currentValue : ℚ
  message : String
  severity : String
  triggered : Bool
  resolved : Bool
  createdAt : Int
  resolvedAt : Option Int
deriving DecidableEq

/-- The `_id` of a `$group` stage keyed on provider and metric type. -/
structure GroupId where
  provider : String
  metricType : String
deriving DecidableEq

/-- One output document of the `$group` stage of `getDashboard`. -/
structure LatestMetric where
  _id : GroupId
  value : ℚ
  unit : String
  timestamp : Int
deriving DecidableEq

/-- The body `{success, message?, data?}` sent with `res.status(..).json(..)`. -/
structure Response (α : Type) where
  status : Nat
  success : Bool
  message : Option String
  data : Option α
deriving DecidableEq

/-! ## JavaScript helpers -/

/-- Truthiness of a string-valued request field: `undefined` and `''` are falsy. -/
def truthy : Option String → Bool
  | none => false
  | some s => s != ""

/-- The characters of `Number.prototype.toFixed(2)` for a non-negative integer
`n` of hundredths: the decimal digits of `n`, left-padded with zeros to three
characters, with a point before the last two. -/
def fixedDigits (n : Nat) : List Char :=
  let m := Nat.toDigits 10 n
  let m := if m.length ≤ 2 then List.replicate (3 - m.length) '0' ++ m else m
  m.take (m.length - 2) ++ '.' :: m.drop (m.length - 2)

/-- The integer `n` for which `n / 100 - a` is as close to zero as possible,
the larger one when there are two (`a ≥ 0`). -/
def nearestHundredths (a : ℚ) : Nat :=
  (200 * a.num.natAbs + a.den) / (2 * a.den)

/-- `x.toFixed(2)` (ECMAScript `Number.prototype.toFixed`), on an exact
rational. A negative `x` is rendered as `-` followed by the rendering of `-x`.
For `|x| ≥ 10^21` JavaScript answers `ToString(x)`, an exponent form that
depends on the binary representation: that case yields `none`. -/
def toFixed2 (x : ℚ) : Option String :=
  let s : List Char := if x < 0 then ['-'] else []
  let a : ℚ := if x < 0 then -x else x
  if (10 : ℚ) ^ 21 ≤ a then none
  else some (String.mk (s ++ fixedDigits (nearestHundredths a)))

/-! ## The `Metric` collection -/

/-- The match document `{ userId, provider? }` built by `getDashboard`: the
provider is constrained only when the parameter is truthy and not `'all'`. -/
def dashboardQuery (userId : Nat) (provider : Option String) (m : Metric) : Bool :=
  decide (m.userId = userId) &&
    (if truthy provider && provider != some "all" then some m.provider == provider else true)

/-- The `$match` stage: the query and `timestamp: { $gte: oneDayAgo }`. -/
def matchStage (userId : Nat) (provider : Option String) (oneDayAgo : Int)
    (m : Metric) : Bool :=
  dashboardQuery userId provider m && decide (oneDayAgo ≤ m.timestamp)

/-- The stage `$sort: { timestamp: -1 }`. -/
def sortTimestampDesc (docs : List Metric) : List Metric :=
  docs.insertionSort (fun a b => b.timestamp ≤ a.timestamp)

/-- The stage `.sort({ timestamp: 1 })`. -/
def sortTimestampAsc (docs : List Metric) : List Metric :=
  docs.insertionSort (fun a b => a.timestamp ≤ b.timestamp)

/-- The group key `{ provider: '$provider', metricType: '$metricType' }`. -/
def Metric.groupId (m : Metric) : GroupId := ⟨m.provider, m.metricType⟩

/-- The accumulators `$first` of value, unit and timestamp. -/
def Metric.firstOf (m : Metric) : LatestMetric :=
  ⟨m.groupId, m.value, m.unit, m.timestamp⟩

/-- The `$group` stage with `$first` accumulators: documents are read in
order, a document whose key was already seen is skipped, the first document of
each key gives the group's output. -/
def groupFirst : List GroupId → List Metric → List LatestMetric
  | _, [] => []
  | seen, m :: ms =>
    if m.groupId ∈ seen then groupFirst seen ms
    else m.firstOf :: groupFirst (m.groupId :: seen) ms

/-- The pipeline `Metric.aggregate([$match, $sort, $group])` of `getDashboard`. -/
def latestMetrics (store : List Metric) (userId : Nat) (provider : Option String)
    (now : Int) : List LatestMetric :=
  let oneDayAgo := now - 24 * 60 * 60 * 1000
  groupFirst [] (sortTimestampDesc (store.filter (matchStage userId provider oneDayAgo)))

/-! ## The `Alert` collection -/

/-- The cursor step `.sort({ createdAt: -1 })`. -/
def sortCreatedAtDesc (docs : List Alert) : List Alert :=
  docs.insertionSort (fun a b => b.createdAt ≤ a.createdAt)

/-- The cursor step `.limit(n)` of the store: `0` means no limit, a negative
`n` limits to `|n|` documents. -/
def limitDocs {α : Type} (n : Int) (docs : List α) : List α :=
  if n = 0 then docs else docs.take n.natAbs

/-- The query `Alert.find({ userId, resolved: false }).sort({ createdAt: -1 }).limit(5)`
of `getDashboard`. -/
def recentAlerts (alerts : List Alert) (userId : Nat) : List Alert :=
  limitDocs 5 (sortCreatedAtDesc
    (alerts.filter (fun a => decide (a.userId = userId) && a.resolved == false)))

/-! ## `getDashboard` -/

/-- The callback `(sum, m) => sum + m.value` folded from 0 by `reduce`. -/
def sumValues (l : List LatestMetric) : ℚ :=
  l.foldl (fun sum m => sum + m.value) 0

/-- The guarded mean `l.length > 0 ? sum / l.length : 0`. -/
def average (l : List LatestMetric) : ℚ :=
  if l.length > 0 then sumValues l / (l.length : ℚ) else 0

/-- The selection `latestMetrics.filter(m => m._id.metricType === t)`. -/
def ofType (t : String) (latest : List LatestMetric) : List LatestMetric :=
  latest.filter (fun m => m._id.metricType == t)

/-- The `summary` object of the dashboard response. -/
structure Summary where
  totalBilling : Option String
  avgCpu : Option String
  avgMemory : Option String
  avgStorage : Option String
deriving DecidableEq

/-- The `data` object of the dashboard response. -/
structure Dashboard where
  summary : Summary
  metrics : List LatestMetric
  alerts : List Alert
deriving DecidableEq

/-- The computation of `summary` from the grouped documents. -/
def summarize (latest : List LatestMetric) : Summary :=
  let billing := ofType "billing" latest
  let totalBilling := sumValues billing
  let avgCpu := average (ofType "cpu" latest)
  let avgMemory := average (ofType "memory" latest)
  let avgStorage := average (ofType "storage" latest)
  { totalBilling := toFixed2 totalBilling
    avgCpu := toFixed2 avgCpu
    avgMemory := toFixed2 avgMemory
    avgStorage := toFixed2 avgStorage }

/-- The handler `getDashboard` on its success path: `provider` is
`req.query.provider`, `userId` is `req.user._id`, `now` is `new Date()`. -/
def getDashboard (metrics : List Metric) (alerts : List Alert) (userId : Nat)
    (provider : Option String) (now : Int) : Response Dashboard :=
  let latest := latestMetrics metrics userId provider now
  { status := 200
    success := true
    message := none
    data := some
      { summary := summarize latest
        metrics := latest
        alerts := recentAlerts alerts userId } }

/-! ## Local time and the window of the series reads -/

/-- The server's time zone, as ECMAScript's `LocalTZA(t, isUTC)`: the offset
in milliseconds in force at UTC instant `t` (`isUTC = true`) or at local time
`t` (`isUTC = false`). -/
structure TimeZone where
  LocalTZA : Int → Bool → Int

/-- The zone with a constant offset (`0` is UTC). -/
def TimeZone.fixed (offset : Int) : TimeZone := ⟨fun _ _ => offset⟩

/-- Milliseconds per day (ECMAScript `msPerDay`). -/
def msPerDay : Int := 86400000

/-- ECMAScript `LocalTime(t)`: UTC instant to local time. -/
def LocalTime (tz : TimeZone) (t : Int) : Int := t + tz.LocalTZA t true

/-- ECMAScript `UTC(t)`: local time to UTC instant. -/
def UTC (tz : TimeZone) (t : Int) : Int := t - tz.LocalTZA t false

/-- ECMAScript `Day(t)`: the day number of a time value. -/
def Day (t : Int) : Int := t / msPerDay

/-- ECMAScript `TimeWithinDay(t)`. -/
def TimeWithinDay (t : Int) : Int := t % msPerDay

/-- ECMAScript `MakeDate(day, time)`. -/
def MakeDate (day time : Int) : Int := day * msPerDay + time

/-- The statement `d.setDate(d.getDate() - n)` on a date with time value `t`.
`getDate()` is the day of the month of `LocalTime(t)`, that is
`Day(LocalTime t) - f + 1` for `f` the day number of the first of that month,
and `setDate(dt)` stores `UTC(MakeDate(MakeDay(year, month, dt), TimeWithinDay(LocalTime t)))`
with `MakeDay(year, month, dt) = f + dt - 1`: the day number becomes
`Day(LocalTime t) - n` and the local time of day is kept. -/
def setDateBack (tz : TimeZone) (t : Int) (n : Int) : Int :=
  let tl := LocalTime tz t
  UTC tz (MakeDate (Day tl - n) (TimeWithinDay tl))

/-- The `startDate` of the series handlers: `const { days = 7 } = req.query`,
`startDate = new Date(); startDate.setDate(startDate.getDate() - parseInt(days))`. -/
def startDate (tz : TimeZone) (now : Int) (days : Option Int) : Int :=
  setDateBack tz now (days.getD 7)

/-- The success response `res.status(200).json({ success: true, data })`. -/
def okData {α : Type} (data : α) : Response α :=
  { status := 200, success := true, message := none, data := some data }

/-! ## The series reads -/

/-- The handler `getBilling` on its success path. -/
def getBilling (tz : TimeZone) (metrics : List Metric) (userId : Nat) (provider : String)
    (days : Option Int) (now : Int) : Response (List Metric) :=
  let startDate := startDate tz now days
  okData (sortTimestampAsc (metrics.filter (fun m =>
    decide (m.userId = userId) && m.provider == provider && m.metricType == "billing"
      && decide (startDate ≤ m.timestamp))))

/-- The handler `getResources` on its success path. -/
def getResources (tz : TimeZone) (metrics : List Metric) (userId : Nat) (provider : String)
    (days : Option Int) (now : Int) : Response (List Metric) :=
  let startDate := startDate tz now days
  okData (sortTimestampAsc (metrics.filter (fun m =>
    decide (m.userId = userId) && m.provider == provider
      && decide (m.metricType ∈ ["cpu", "memory", "storage"])
      && decide (startDate ≤ m.timestamp))))

/-- The handler `getPerformance` on its success path. -/
def getPerformance (tz : TimeZone) (metrics : List Metric) (userId : Nat) (provider : String)
    (days : Option Int) (now : Int) : Response (List Metric) :=
  let startDate := startDate tz now days
  okData (sortTimestampAsc (metrics.filter (fun m =>
    decide (m.userId = userId) && m.provider == provider
      && decide (m.metricType ∈ ["latency", "throughput"])
      && decide (startDate ≤ m.timestamp))))

/-- The handler `getAllMetrics` on its success path: `type` is
`req.query.type`, added to the query only when truthy. -/
def getAllMetrics (tz : TimeZone) (metrics : List Metric) (userId : Nat) (provider : String)
    (days : Option Int) (type : Option String) (now : Int) : Response (List Metric) :=
  let startDate := startDate tz now days
  okData (sortTimestampAsc (metrics.filter (fun m =>
    decide (m.userId = userId) && m.provider == provider
      && decide (startDate ≤ m.timestamp)
      && (if truthy type then some m.metricType == type else true))))

/-! ## The alert handlers -/

/-- The handler `getAlerts` on its success path: `resolved` is
`req.query.resolved`, `limit` is `parseInt(req.query.limit)` with the default
50. The filter on `resolved` is `resolved === 'true'` whenever the parameter
is defined. -/
def getAlerts (alerts : List Alert) (userId : Nat) (resolved : Option String)
    (limit : Option Int) : Response (List Alert) :=
  okData (limitDocs (limit.getD 50) (sortCreatedAtDesc (alerts.filter (fun a =>
    decide (a.userId = userId) &&
      (match resolved with
       | none => true
       | some r => a.resolved == (r == "true"))))))

/-- The body of `POST /api/users/alerts` after JSON parsing: a field is
`none` when the key is missing. -/
structure AlertBody where
  provider : Option String
  alertType : Option String
  threshold : Option ℚ
  currentValue : Option ℚ
  message : Option String
  severity : Option String
deriving DecidableEq

/-- Truthiness of a number-valued request field: `undefined` and `0` are falsy. -/
def truthyNum : Option ℚ → Bool
  | none => false
  | some x => x != 0

/-- The `enum` of `provider` in `models/Alert.js`. -/
def alertProviders : List String := ["aws", "gcp", "azure", "digitalocean"]

/-- The `enum` of `alertType` in `models/Alert.js`. -/
def alertTypes : List String := ["cost", "cpu", "memory", "storage", "performance", "health"]

/-- The `enum` of `severity` in `models/Alert.js`. -/
def alertSeverities : List String := ["low", "medium", "high", "critical"]

/-- The call `Alert.create({ userId, provider, alertType, threshold, currentValue,
message, severity })`: schema validation (`required`, `enum`) followed by the
defaults `triggered: true`, `resolved: false`, `createdAt: Date.now`, no
`resolvedAt`; `none` is a validation error. `newId` is the generated `_id`. -/
def Alert.create (newId userId : Nat) (provider alertType : String) (threshold currentValue : ℚ)
    (message severity : String) (now : Int) : Option Alert :=
  if provider ∈ alertProviders ∧ alertType ∈ alertTypes ∧ message ≠ "" ∧
      severity ∈ alertSeverities then
    some
      { _id := newId, userId := userId, provider := provider, alertType := alertType
        threshold := threshold, currentValue := currentValue, message := message
        severity := severity, triggered := true, resolved := false, createdAt := now
        resolvedAt := none }
  else none

/-- The 400 response of `createAlert`. -/
def missingFields : Response Alert :=
  { status := 400, success := false, message := some "Please provide all required fields"
    data := none }

/-- The handler `createAlert`: the response and the ledger after the call.
A validation error raised by `Alert.create` is caught and answered with 500. -/
def createAlert (alerts : List Alert) (userId : Nat) (body : AlertBody) (newId : Nat)
    (now : Int) : Response Alert × List Alert :=
  if !truthy body.provider || !truthy body.alertType || !truthyNum body.threshold ||
      !truthyNum body.currentValue || !truthy body.message then
    (missingFields, alerts)
  else
    let severity := if truthy body.severity then body.severity.getD "" else "medium"
    match Alert.create newId userId (body.provider.getD "") (body.alertType.getD "")
        (body.threshold.getD 0) (body.currentValue.getD 0) (body.message.getD "") severity now with
    | some alert =>
      ({ status := 201, success := true, message := some "Alert created successfully"
         data := some alert }, alerts ++ [alert])
    | none =>
      ({ status := 500, success := false, message := some "Error creating alert"
         data := none }, alerts)

/-- The store operation `findOneAndUpdate(query, update, { new: true })`: the
first document matching the query is replaced by its update, which is also
returned; `none` when no document matches. -/
def findOneAndUpdate (q : Alert → Bool) (update : Alert → Alert) :
    List Alert → Option Alert × List Alert
  | [] => (none, [])
  | a :: as =>
    if q a then (some (update a), update a :: as)
    else ((findOneAndUpdate q update as).1, a :: (findOneAndUpdate q update as).2)

/-- The store operation `findOneAndDelete(query)`: the first document matching
the query is removed and returned; `none` when no document matches. -/
def findOneAndDelete (q : Alert → Bool) : List Alert → Option Alert × List Alert
  | [] => (none, [])
  | a :: as =>
    if q a then (some a, as)
    else ((findOneAndDelete q as).1, a :: (findOneAndDelete q as).2)

/-- The 404 response of `resolveAlert` and `deleteAlert`. -/
def alertNotFound : Response Alert :=
  { status := 404, success := false, message := some "Alert not found", data := none }

/-- The handler `resolveAlert`: `id` is `req.params.id` as an ObjectId, `now`
is `new Date()`. The response and the ledger after the call. -/
def resolveAlert (alerts : List Alert) (userId : Nat) (id : Nat) (now : Int) :
    Response Alert × List Alert :=
  match findOneAndUpdate (fun a => decide (a._id = id) && decide (a.userId = userId))
      (fun a => { a with resolved := true, resolvedAt := some now }) alerts with
  | (none, _) => (alertNotFound, alerts)
  | (some alert, alerts2) =>
    ({ status := 200, success := true, message := some "Alert resolved successfully"
       data := some alert }, alerts2)

/-- The handler `deleteAlert`: the response and the ledger after the call. -/
def deleteAlert (alerts : List Alert) (userId : Nat) (id : Nat) :
    Response Alert × List Alert :=
  match findOneAndDelete (fun a => decide (a._id = id) && decide (a.userId = userId)) alerts with
  | (none, _) => (alertNotFound, alerts)
  | (some _, alerts2) =>
    ({ status := 200, success := true, message := some "Alert deleted successfully"
       data := none }, alerts2)

/-- One call of a mutating alert handler, with its request. -/
inductive LedgerOp where
  | create (userId : Nat) (body : AlertBody) (newId : Nat) (now : Int)
  | resolve (userId : Nat) (id : Nat) (now : Int)
  | delete (userId : Nat) (id : Nat)

/-- The ledger after one call. -/
def applyOp (alerts : List Alert) : LedgerOp → List Alert
  | .create userId body newId now => (createAlert alerts userId body newId now).2
  | .resolve userId id now => (resolveAlert alerts userId id now).2
  | .delete userId id => (deleteAlert alerts userId id).2

/-- The ledger reached from the empty ledger by a sequence of calls. -/
def runOps (ops : List LedgerOp) : List Alert :=
  ops.foldl applyOp []

/-! ## `seedMetrics` -/

/-- Milliseconds per hour (ECMAScript `msPerHour`). -/
def msPerHour : Int := 3600000

/-- The call `date.setHours(hour, 0, 0, 0)` on a date with time value `t`: the
local day is kept, the time within the day becomes `hour` o'clock, and the
result is both stored in the date and returned. -/
def setHours (tz : TimeZone) (t : Int) (hour : Int) : Int :=
  UTC tz (MakeDate (Day (LocalTime tz t)) (hour * msPerHour))

/-- The array `providers` of `seedMetrics`. -/
def providers : List String := ["aws", "gcp", "azure", "digitalocean"]

/-- The metric types pushed for one provider, in order. -/
def seedTypes : List String := ["billing", "cpu", "memory", "storage", "latency", "throughput"]

/-- The body of the loop over providers: the six documents pushed for one
provider and the time value of `date` afterwards. `date` is the time value of
the mutable `date` on entry, `random k`, `random (k+1)`, ... are the results of
the successive calls of `Math.random()`. -/
def seedProvider (tz : TimeZone) (userId : Nat) (random : Nat → ℚ) (provider : String)
    (date : Int) (k : Nat) : List Metric × Int :=
  let t0 := setHours tz date 0
  let t1 := setHours tz t0 12
  let t2 := setHours tz t1 12
  let t3 := setHours tz t2 12
  let t4 := setHours tz t3 12
  let t5 := setHours tz t4 12
  ([{ userId := userId, provider := provider, metricType := "billing"
      value := random k * 500 + 100, unit := "USD", resourceId := "", resourceName := ""
      timestamp := t0 },
    { userId := userId, provider := provider, metricType := "cpu"
      value := random (k + 1) * 40 + 40, unit := "%", resourceId := "", resourceName := ""
      timestamp := t1 },
    { userId := userId, provider := provider, metricType := "memory"
      value := random (k + 2) * 30 + 50, unit := "%", resourceId := "", resourceName := ""
      timestamp := t2 },
    { userId := userId, provider := provider, metricType := "storage"
      value := random (k + 3) * 20 + 60, unit := "%", resourceId := "", resourceName := ""
      timestamp := t3 },
    { userId := userId, provider := provider, metricType := "latency"
      value := random (k + 4) * 100 + 50, unit := "ms", resourceId := "", resourceName := ""
      timestamp := t4 },
    { userId := userId, provider := provider, metricType := "throughput"
      value := random (k + 5) * 1000 + 500, unit := "req/s", resourceId := "", resourceName := ""
      timestamp := t5 }], t5)

/-- The loop `for (const provider of providers)` of one day: the documents
pushed, with `date` and the count of random draws carried from one provider to
the next. -/
def seedDay (tz : TimeZone) (userId : Nat) (random : Nat → ℚ) :
    List String → Int → Nat → List Metric
  | [], _, _ => []
  | provider :: rest, date, k =>
    (seedProvider tz userId random provider date k).1 ++
      seedDay tz userId random rest (seedProvider tz userId random provider date k).2 (k + 6)

/-- The loop `for (let day = 0; day < 7; day++)`, from `day` on for `n` more
iterations: each iteration starts from `new Date()` moved back `day` days. -/
def seedDays (tz : TimeZone) (userId : Nat) (random : Nat → ℚ) (now : Int) :
    Nat → Nat → Nat → List Metric
  | 0, _, _ => []
  | n + 1, day, k =>
    seedDay tz userId random providers (setDateBack tz now day) k ++
      seedDays tz userId random now n (day + 1) (k + 6 * providers.length)

/-- The body `{ success, message, count }` sent by `seedMetrics`. -/
structure SeedResponse where
  status : Nat
  success : Bool
  message : String
  count : Nat
deriving DecidableEq

/-- The handler `seedMetrics` on its success path: the response and the store
after `Metric.insertMany(metrics)`. `now` is the value of `new Date()` during
the request. -/
def seedMetrics (tz : TimeZone) (store : List Metric) (userId : Nat) (now : Int)
    (random : Nat → ℚ) : SeedResponse × List Metric :=
  let metrics := seedDays tz userId random now 7 0 0
  ({ status := 201, success := true, message := "Sample metrics seeded successfully"
     count := metrics.length }, store ++ metrics)

/-- Consecutive calls of `seedMetrics` by one user, each with its request time
and random draws: the store after the last call. -/
def seedCalls (tz : TimeZone) (userId : Nat) :
    List (Int × (Nat → ℚ)) → List Metric → List Metric
  | [], store => store
  | (now, random) :: rest, store =>
    seedCalls tz userId rest (seedMetrics tz store userId now random).2

/-! ## `clearMetrics` -/

/-- The store operation `deleteMany(query)`: the number of documents removed
and the collection afterwards. -/
def deleteMany (q : Metric → Bool) (store : List Metric) : Nat × List Metric :=
  ((store.filter q).length, store.filter (fun m => !q m))

/-- The body `{ success, message, deletedCount }` sent by `clearMetrics`. -/
structure ClearResponse where
  status : Nat
  success : Bool
  message : String
  deletedCount : Nat
deriving DecidableEq

/-- The handler `clearMetrics` on its success path: the response and the store
after `Metric.deleteMany({ userId })`. -/
def clearMetrics (store : List Metric) (userId : Nat) : ClearResponse × List Metric :=
  let result := deleteMany (fun m => decide (m.userId = userId)) store
  ({ status := 200, success := true, message := "Metrics cleared successfully"
     deletedCount := result.1 }, result.2)

/-! ## Users' alert settings -/

/-- The `alertSettings` of a user (`models/User.js`). -/
structure AlertSettings where
  costThreshold : ℚ
  cpuThreshold : ℚ
  memoryThreshold : ℚ
  storageThreshold : ℚ
  notificationsEnabled : Bool
deriving DecidableEq

/-- The schema defaults of `alertSettings`. -/
def defaultAlertSettings : AlertSettings :=
  { costThreshold := 1000, cpuThreshold := 80, memoryThreshold := 80, storageThreshold := 90
    notificationsEnabled := true }

/-! ## The system as a whole -/

/-- The persistent state: the two collections and the users' alert settings. -/
structure System where
  metrics : List Metric
  alerts : List Alert
  settings : Nat → AlertSettings

/-- A request to one of the metrics or alert handlers, with the authenticated
caller and everything the handler reads from the request and its environment. -/
inductive Request where
  | getDashboard (userId : Nat) (provider : Option String) (now : Int)
  | getBilling (userId : Nat) (provider : String) (days : Option Int) (now : Int)
  | getResources (userId : Nat) (provider : String) (days : Option Int) (now : Int)
  | getPerformance (userId : Nat) (provider : String) (days : Option Int) (now : Int)
  | getAllMetrics (userId : Nat) (provider : String) (days : Option Int)
      (type : Option String) (now : Int)
  | seedMetrics (userId : Nat) (now : Int) (random : Nat → ℚ)
  | clearMetrics (userId : Nat)
  | getAlerts (userId : Nat) (resolved : Option String) (limit : Option Int)
  | createAlert (userId : Nat) (body : AlertBody) (newId : Nat) (now : Int)
  | resolveAlert (userId : Nat) (id : Nat) (now : Int)
  | deleteAlert (userId : Nat) (id : Nat)

/-- The state after a request. The read handlers call only `aggregate` and
`find` and leave the state as it is; `seedMetrics` and `clearMetrics` write the
`Metric` collection; `createAlert`, `resolveAlert` and `deleteAlert` write the
`Alert` collection. No handler reads or writes the alert settings. -/
def handle (tz : TimeZone) (s : System) : Request → System
  | .getDashboard _ _ _ => s
  | .getBilling _ _ _ _ => s
  | .getResources _ _ _ _ => s
  | .getPerformance _ _ _ _ => s
  | .getAllMetrics _ _ _ _ _ => s
  | .seedMetrics userId now random =>
    { s with metrics := (seedMetrics tz s.metrics userId now random).2 }
  | .clearMetrics userId => { s with metrics := (clearMetrics s.metrics userId).2 }
  | .getAlerts _ _ _ => s
  | .createAlert userId body newId now =>
    { s with alerts := (createAlert s.alerts userId body newId now).2 }
  | .resolveAlert userId id now => { s with alerts := (resolveAlert s.alerts userId id now).2 }
  | .deleteAlert userId id => { s with alerts := (deleteAlert s.alerts userId id).2 }

/-! ## Store failures -/

/-- The body `{ success: false, message }` sent with status 500 by the `catch`
block of a handler. -/
structure ErrorBody where
  status : Nat
  success : Bool
  message : String
deriving DecidableEq

/-- The `try { ... } catch (error) { console.error(..); res.status(500).json({ success:
false, message }) }` around the store operations of a handler: `fault` is the
error thrown by a store operation of this request, if one fails; `run` is what
the handler answers when none fails. The error itself only goes to the log. -/
def tryCatch {ε α : Type} (message : String) (fault : Option ε) (run : α) :
    Except ErrorBody α :=
  match fault with
  | none => .ok run
  | some _ => .error { status := 500, success := false, message := message }

/-- The answer of each handler when a store operation may fail: the status and
the success flag of the handler's own answer when none fails, the error body
of its `catch` block otherwise. `createAlert` answers its 400 response before
any store operation. -/
def respond {ε : Type} (tz : TimeZone) (s : System) (fault : Option ε) :
    Request → Except ErrorBody (Nat × Bool)
  | .getDashboard userId provider now =>
    tryCatch "Error fetching dashboard metrics" fault
      ((getDashboard s.metrics s.alerts userId provider now).status,
        (getDashboard s.metrics s.alerts userId provider now).success)
  | .getBilling userId provider days now =>
    tryCatch "Error fetching billing metrics" fault
      ((getBilling tz s.metrics userId provider days now).status,
        (getBilling tz s.metrics userId provider days now).success)
  | .getResources userId provider days now =>
    tryCatch "Error fetching resource metrics" fault
      ((getResources tz s.metrics userId provider days now).status,
        (getResources tz s.metrics userId provider days now).success)
  | .getPerformance userId provider days now =>
    tryCatch "Error fetching performance metrics" fault
      ((getPerformance tz s.metrics userId provider days now).status,
        (getPerformance tz s.metrics userId provider days now).success)
  | .getAllMetrics userId provider days type now =>
    tryCatch "Error fetching metrics" fault
      ((getAllMetrics tz s.metrics userId provider days type now).status,
        (getAllMetrics tz s.metrics userId provider days type now).success)
  | .seedMetrics userId now random =>
    tryCatch "Error seeding metrics" fault
      ((seedMetrics tz s.metrics userId now random).1.status,
        (seedMetrics tz s.metrics userId now random).1.success)
  | .clearMetrics userId =>
    tryCatch "Error clearing metrics" fault
      ((clearMetrics s.metrics userId).1.status, (clearMetrics s.metrics userId).1.success)
  | .getAlerts userId resolved limit =>
    tryCatch "Error fetching alerts" fault
      ((getAlerts s.alerts userId resolved limit).status,
        (getAlerts s.alerts userId resolved limit).success)
  | .createAlert userId body newId now =>
    if !truthy body.provider || !truthy body.alertType || !truthyNum body.threshold ||
        !truthyNum body.currentValue || !truthy body.message then
      .ok (missingFields.status, missingFields.success)
    else
      tryCatch "Error creating alert" fault
        ((createAlert s.alerts userId body newId now).1.status,
          (createAlert s.alerts userId body newId now).1.success)
  | .resolveAlert userId id now =>
    tryCatch "Error resolving alert" fault
      ((resolveAlert s.alerts userId id now).1.status,
        (resolveAlert s.alerts userId id now).1.success)
  | .deleteAlert userId id =>
    tryCatch "Error deleting alert" fault
      ((deleteAlert s.alerts userId id).1.status, (deleteAlert s.alerts userId id).1.success)

/-! ## Specification-side vocabulary -/

/-- The window of the dashboard: `24 * 60 * 60 * 1000` milliseconds. -/
def dayMs : Int := 86400000

/-- Sample `m` belongs to `userId`, is not older than 24 hours at `now`, and
passes the provider parameter: an absent, empty or `'all'` parameter lets
every provider through, any other value only that provider. -/
def InWindow (userId : Nat) (provider : Option String) (now : Int) (m : Metric) : Prop :=
  m.userId = userId ∧ now - dayMs ≤ m.timestamp ∧
    (provider = none ∨ provider = some "" ∨ provider = some "all" ∨ provider = some m.provider)

/-- The samples of day offset 0 pushed by a `seedMetrics` call at time `now`:
the first block of the loop over days. -/
def seededToday (tz : TimeZone) (userId : Nat) (random : Nat → ℚ) (now : Int) : List Metric :=
  seedDay tz userId random providers (setDateBack tz now 0) 0

/-! ## Lemmas on sorting and grouping -/

theorem matchStage_iff (userId : Nat) (provider : Option String) (now : Int) (m : Metric) :
    matchStage userId provider (now - 24 * 60 * 60 * 1000) m = true ↔
      InWindow userId provider now m := by
  unfold matchStage dashboardQuery InWindow dayMs
  rcases provider with _ | p
  · simp [truthy]
  · by_cases h1 : p = ""
    · subst h1; simp [truthy]
    · by_cases h2 : p = "all"
      · subst h2; simp [truthy]
      · simp [truthy, h1, h2]
        constructor
        · rintro ⟨⟨a, b⟩, c⟩; exact ⟨a, c, b.symm⟩
        · rintro ⟨a, c, b⟩; exact ⟨⟨a, b.symm⟩, c⟩

theorem sortTimestampDesc_perm (l : List Metric) : (sortTimestampDesc l).Perm l :=
  List.perm_insertionSort _ l

theorem sortTimestampDesc_pairwise (l : List Metric) :
    (sortTimestampDesc l).Pairwise (fun a b => b.timestamp ≤ a.timestamp) := by
  haveI : IsTotal Metric (fun a b => b.timestamp ≤ a.timestamp) :=
    ⟨fun a b => le_total b.timestamp a.timestamp⟩
  haveI : IsTrans Metric (fun a b => b.timestamp ≤ a.timestamp) :=
    ⟨fun _ _ _ h1 h2 => le_trans h2 h1⟩
  exact List.sorted_insertionSort (fun a b : Metric => b.timestamp ≤ a.timestamp) l

theorem sortTimestampAsc_perm (l : List Metric) : (sortTimestampAsc l).Perm l :=
  List.perm_insertionSort _ l

/-- Every group comes from a document that is the first of its key. -/
theorem groupFirst_mem (seen : List GroupId) (l : List Metric) (g : LatestMetric)
    (hg : g ∈ groupFirst seen l) :
    ∃ l1 m l2, l = l1 ++ m :: l2 ∧ g = m.firstOf ∧ m.groupId ∉ seen ∧
      ∀ x ∈ l1, x.groupId ≠ m.groupId := by
  induction l generalizing seen with
  | nil => simp [groupFirst] at hg
  | cons a as ih =>
    unfold groupFirst at hg
    split at hg
    · rename_i hin
      obtain ⟨l1, m, l2, hl, hgm, hns, hfirst⟩ := ih seen hg
      refine ⟨a :: l1, m, l2, by simp [hl], hgm, hns, ?_⟩
      intro x hx
      rcases List.mem_cons.mp hx with rfl | hx
      · intro h; exact hns (h ▸ hin)
      · exact hfirst x hx
    · rename_i hnin
      rcases List.mem_cons.mp hg with rfl | hg
      · exact ⟨[], a, as, rfl, rfl, hnin, by simp⟩
      · obtain ⟨l1, m, l2, hl, hgm, hns, hfirst⟩ := ih (a.groupId :: seen) hg
        refine ⟨a :: l1, m, l2, by simp [hl], hgm, ?_, ?_⟩
        · intro h; exact hns (List.mem_cons_of_mem _ h)
        · intro x hx
          rcases List.mem_cons.mp hx with rfl | hx
          · intro h; exact hns (by simp [h])
          · exact hfirst x hx

/-- No group repeats a key, and no group has a key already seen. -/
theorem groupFirst_keys (seen : List GroupId) (l : List Metric) :
    ((groupFirst seen l).map (fun g => g._id)).Nodup ∧
      ∀ g ∈ groupFirst seen l, g._id ∉ seen := by
  induction l generalizing seen with
  | nil => simp [groupFirst]
  | cons a as ih =>
    unfold groupFirst
    split
    · exact ih seen
    · rename_i hnin
      obtain ⟨hnd, hseen⟩ := ih (a.groupId :: seen)
      refine ⟨?_, ?_⟩
      · simp only [List.map_cons, List.nodup_cons]
        refine ⟨?_, hnd⟩
        intro hmem
        obtain ⟨g, hg, hgid⟩ := List.mem_map.mp hmem
        apply hseen g hg
        have : g._id = a.groupId := hgid
        simp [this]
      · intro g hg
        rcases List.mem_cons.mp hg with rfl | hg
        · exact hnin
        · intro h; exact hseen g hg (List.mem_cons_of_mem _ h)

/-- Every document with an unseen key has a group. -/
theorem groupFirst_covers (seen : List GroupId) (l : List Metric) (m : Metric)
    (hm : m ∈ l) (hns : m.groupId ∉ seen) :
    ∃ g ∈ groupFirst seen l, g._id = m.groupId := by
  induction l generalizing seen with
  | nil => simp at hm
  | cons a as ih =>
    unfold groupFirst
    split
    · rename_i hin
      rcases List.mem_cons.mp hm with rfl | hm
      · exact absurd hin hns
      · exact ih seen hm hns
    · rename_i hnin
      by_cases hk : m.groupId = a.groupId
      · exact ⟨a.firstOf, List.mem_cons_self _ _, hk.symm⟩
      · rcases List.mem_cons.mp hm with rfl | hm
        · exact absurd rfl hk
        · obtain ⟨g, hg, hgid⟩ := ih (a.groupId :: seen) hm (by simp [hk, hns])
          exact ⟨g, List.mem_cons_of_mem _ hg, hgid⟩

/-- In a list sorted by descending timestamp, each group carries the greatest
timestamp of its key. -/
theorem groupFirst_latest (l : List Metric)
    (hs : l.Pairwise (fun a b => b.timestamp ≤ a.timestamp))
    (g : LatestMetric) (hg : g ∈ groupFirst [] l) :
    ∃ m ∈ l, g = m.firstOf ∧ ∀ x ∈ l, x.groupId = m.groupId → x.timestamp ≤ m.timestamp := by
  obtain ⟨l1, m, l2, hl, hgm, -, hfirst⟩ := groupFirst_mem [] l g hg
  subst hl
  refine ⟨m, by simp, hgm, ?_⟩
  intro x hx hk
  rcases List.mem_append.mp hx with hx | hx
  · exact absurd hk (hfirst x hx)
  · rcases List.mem_cons.mp hx with rfl | hx
    · exact le_refl _
    · have := (List.pairwise_append.mp hs).2.1
      exact (List.pairwise_cons.mp this).1 x hx

theorem mem_matched (store : List Metric) (userId : Nat) (provider : Option String)
    (now : Int) (m : Metric) :
    m ∈ sortTimestampDesc (store.filter (matchStage userId provider (now - 24 * 60 * 60 * 1000)))
      ↔ m ∈ store ∧ InWindow userId provider now m := by
  rw [(sortTimestampDesc_perm _).mem_iff, List.mem_filter, matchStage_iff]

theorem latestMetrics_window_only (s1 s2 : List Metric) (userId : Nat)
    (provider : Option String) (now : Int)
    (h : s1.filter (fun m => decide (m.userId = userId) && decide (now - dayMs ≤ m.timestamp)) =
      s2.filter (fun m => decide (m.userId = userId) && decide (now - dayMs ≤ m.timestamp))) :
    latestMetrics s1 userId provider now = latestMetrics s2 userId provider now := by
  have key : ∀ s : List Metric,
      s.filter (matchStage userId provider (now - 24 * 60 * 60 * 1000)) =
        (s.filter (fun m => decide (m.userId = userId) && decide (now - dayMs ≤ m.timestamp))).filter
          (matchStage userId provider (now - 24 * 60 * 60 * 1000)) := by
    intro s
    rw [List.filter_filter]
    apply List.filter_congr
    intro m _
    by_cases hm : matchStage userId provider (now - 24 * 60 * 60 * 1000) m = true
    · have := (matchStage_iff userId provider now m).mp hm
      simp [hm, this.1, this.2.1]
    · have hm2 : matchStage userId provider (now - 86400000) m = false := by simpa using hm
      simp [hm2]
  unfold latestMetrics
  simp only []
  rw [key s1, key s2, h]

/-- Moving the day number back by `n` and keeping the time within the day
moves a local time back by `n` days of 86,400,000 ms. -/
theorem makeDate_day_sub (t n : Int) :
    MakeDate (Day t - n) (TimeWithinDay t) = t - n * 86400000 := by
  unfold MakeDate Day TimeWithinDay msPerDay
  have h := Int.ediv_add_emod t 86400000
  linarith

/-- A filter that implies `q` sees only the `q`-part of the list. -/
theorem filter_through {α : Type} (l : List α) (p q : α → Bool)
    (h : ∀ x, p x = true → q x = true) :
    l.filter p = (l.filter q).filter p := by
  rw [List.filter_filter]
  apply List.filter_congr
  intro x _
  cases hp : p x
  · simp
  · simp [h x hp]

theorem mem_limitDocs {α : Type} (n : Int) (l : List α) (a : α) (h : a ∈ limitDocs n l) :
    a ∈ l := by
  unfold limitDocs at h
  split at h
  · exact h
  · exact List.mem_of_mem_take h

theorem sortCreatedAtDesc_perm (l : List Alert) : (sortCreatedAtDesc l).Perm l :=
  List.perm_insertionSort _ l

/-- Every document of a series read satisfies the query predicate. -/
theorem mem_okData_filter (store : List Metric) (f : Metric → Bool) (l : List Metric)
    (m : Metric) (hl : (okData (sortTimestampAsc (store.filter f))).data = some l)
    (hm : m ∈ l) : m ∈ store ∧ f m = true := by
  have hl2 := Option.some.inj hl
  subst hl2
  exact List.mem_filter.mp ((sortTimestampAsc_perm _).mem_iff.mp hm)

theorem truthy_iff (o : Option String) : truthy o = true ↔ ∃ s, o = some s ∧ s ≠ "" := by
  cases o with
  | none => simp [truthy]
  | some s => simp [truthy]

theorem truthyNum_iff (o : Option ℚ) : truthyNum o = true ↔ ∃ x, o = some x ∧ x ≠ 0 := by
  cases o with
  | none => simp [truthyNum]
  | some x => simp [truthyNum]

/-- The three outcomes of `createAlert`: the 400 response when a required
field is falsy, the 500 response when the schema rejects the document, the 201
response with the new document appended otherwise. -/
theorem createAlert_cases (alerts : List Alert) (userId : Nat) (body : AlertBody)
    (newId : Nat) (now : Int) :
    ((truthy body.provider = false ∨ truthy body.alertType = false ∨
        truthyNum body.threshold = false ∨ truthyNum body.currentValue = false ∨
        truthy body.message = false) ∧
      createAlert alerts userId body newId now = (missingFields, alerts)) ∨
    (∃ p t th cv msg, body.provider = some p ∧ body.alertType = some t ∧
      body.threshold = some th ∧ body.currentValue = some cv ∧ body.message = some msg ∧
      p ≠ "" ∧ t ≠ "" ∧ th ≠ 0 ∧ cv ≠ 0 ∧ msg ≠ "" ∧
      ((¬ (p ∈ alertProviders ∧ t ∈ alertTypes ∧ msg ≠ "" ∧
            (if truthy body.severity then body.severity.getD "" else "medium") ∈
              alertSeverities) ∧
          createAlert alerts userId body newId now =
            ({ status := 500, success := false, message := some "Error creating alert"
               data := none }, alerts)) ∨
        ((p ∈ alertProviders ∧ t ∈ alertTypes ∧
            (if truthy body.severity then body.severity.getD "" else "medium") ∈
              alertSeverities) ∧
          createAlert alerts userId body newId now =
            ({ status := 201, success := true, message := some "Alert created successfully"
               data := some
                { _id := newId, userId := userId, provider := p, alertType := t
                  threshold := th, currentValue := cv, message := msg
                  severity := if truthy body.severity then body.severity.getD "" else "medium"
                  triggered := true, resolved := false, createdAt := now
                  resolvedAt := none } },
              alerts ++
                [{ _id := newId, userId := userId, provider := p, alertType := t
                   threshold := th, currentValue := cv, message := msg
                   severity := if truthy body.severity then body.severity.getD "" else "medium"
                   triggered := true, resolved := false, createdAt := now
                   resolvedAt := none }])))) := by
  by_cases h1 : truthy body.provider = true
  swap
  · left
    refine ⟨Or.inl (by simpa using h1), ?_⟩
    unfold createAlert
    simp [h1]
  by_cases h2 : truthy body.alertType = true
  swap
  · left
    refine ⟨Or.inr (Or.inl (by simpa using h2)), ?_⟩
    unfold createAlert
    simp [h2]
  by_cases h3 : truthyNum body.threshold = true
  swap
  · left
    refine ⟨Or.inr (Or.inr (Or.inl (by simpa using h3))), ?_⟩
    unfold createAlert
    simp [h3]
  by_cases h4 : truthyNum body.currentValue = true
  swap
  · left
    refine ⟨Or.inr (Or.inr (Or.inr (Or.inl (by simpa using h4)))), ?_⟩
    unfold createAlert
    simp [h4]
  by_cases h5 : truthy body.message = true
  swap
  · left
    refine ⟨Or.inr (Or.inr (Or.inr (Or.inr (by simpa using h5)))), ?_⟩
    unfold createAlert
    simp [h5]
  right
  obtain ⟨p, hp, p0⟩ := (truthy_iff _).mp h1
  obtain ⟨t, ht, t0⟩ := (truthy_iff _).mp h2
  obtain ⟨th, hth, th0⟩ := (truthyNum_iff _).mp h3
  obtain ⟨cv, hcv, cv0⟩ := (truthyNum_iff _).mp h4
  obtain ⟨msg, hmsg, msg0⟩ := (truthy_iff _).mp h5
  refine ⟨p, t, th, cv, msg, hp, ht, hth, hcv, hmsg, p0, t0, th0, cv0, msg0, ?_⟩
  have hchk : (!truthy body.provider || !truthy body.alertType || !truthyNum body.threshold ||
      !truthyNum body.currentValue || !truthy body.message) = false := by
    simp [h1, h2, h3, h4, h5]
  rw [hp, ht, hth, hcv, hmsg] at hchk
  by_cases hv : p ∈ alertProviders ∧ t ∈ alertTypes ∧ msg ≠ "" ∧
      (if truthy body.severity then body.severity.getD "" else "medium") ∈ alertSeverities
  · right
    refine ⟨⟨hv.1, hv.2.1, hv.2.2.2⟩, ?_⟩
    unfold createAlert
    simp only [hchk, Bool.false_eq_true, if_false, hp, ht, hth, hcv, hmsg, Option.getD_some]
    unfold Alert.create
    rw [if_pos hv]
  · left
    refine ⟨hv, ?_⟩
    unfold createAlert
    simp only [hchk, Bool.false_eq_true, if_false, hp, ht, hth, hcv, hmsg, Option.getD_some]
    unfold Alert.create
    rw [if_neg hv]

theorem sortCreatedAtDesc_pairwise (l : List Alert) :
    (sortCreatedAtDesc l).Pairwise (fun a b => b.createdAt ≤ a.createdAt) := by
  haveI : IsTotal Alert (fun a b => b.createdAt ≤ a.createdAt) :=
    ⟨fun a b => le_total b.createdAt a.createdAt⟩
  haveI : IsTrans Alert (fun a b => b.createdAt ≤ a.createdAt) :=
    ⟨fun _ _ _ h1 h2 => le_trans h2 h1⟩
  exact List.sorted_insertionSort (fun a b : Alert => b.createdAt ≤ a.createdAt) l

/-- The query of `getAlerts`, in words: the caller's alerts, all of them when
the resolved parameter is absent, otherwise those whose flag equals
`resolved === 'true'`. -/
theorem getAlerts_eq (alerts : List Alert) (userId : Nat) (resolved : Option String)
    (limit : Option Int) :
    getAlerts alerts userId resolved limit =
      okData (limitDocs (limit.getD 50) (sortCreatedAtDesc (alerts.filter (fun a =>
        decide (a.userId = userId ∧
          (resolved = none ∨ a.resolved = decide (resolved = some "true"))))))) := by
  unfold getAlerts
  congr 3
  apply List.filter_congr
  intro a _
  rcases resolved with _ | r
  · simp
  · cases hres : a.resolved <;> by_cases hr : r = "true" <;>
      by_cases hu : a.userId = userId <;> simp [hr, hu]

theorem limitDocs_sublist {α : Type} (n : Int) (l : List α) : (limitDocs n l).Sublist l := by
  unfold limitDocs
  split
  · exact List.Sublist.refl _
  · exact List.take_sublist _ _

theorem findOneAndUpdate_first (q : Alert → Bool) (update : Alert → Alert)
    (l1 l2 : List Alert) (a : Alert) (ha : q a = true) (h1 : ∀ x ∈ l1, q x = false) :
    findOneAndUpdate q update (l1 ++ a :: l2) = (some (update a), l1 ++ update a :: l2) := by
  induction l1 with
  | nil => simp [findOneAndUpdate, ha]
  | cons x xs ih =>
    have hx : q x = false := h1 x (List.mem_cons_self _ _)
    have ih2 := ih (fun y hy => h1 y (List.mem_cons_of_mem _ hy))
    simp [findOneAndUpdate, hx, ih2]

theorem findOneAndDelete_first (q : Alert → Bool)
    (l1 l2 : List Alert) (a : Alert) (ha : q a = true) (h1 : ∀ x ∈ l1, q x = false) :
    findOneAndDelete q (l1 ++ a :: l2) = (some a, l1 ++ l2) := by
  induction l1 with
  | nil => simp [findOneAndDelete, ha]
  | cons x xs ih =>
    have hx : q x = false := h1 x (List.mem_cons_self _ _)
    have ih2 := ih (fun y hy => h1 y (List.mem_cons_of_mem _ hy))
    simp [findOneAndDelete, hx, ih2]

/-- In a ledger without repeated ids, an alert splits the ledger into the
alerts before it and after it, none of which has its id. -/
theorem split_at_id (alerts : List Alert) (a : Alert) (ha : a ∈ alerts)
    (hid : (alerts.map (fun x => x._id)).Nodup) :
    ∃ l1 l2, alerts = l1 ++ a :: l2 ∧ (∀ x ∈ l1, x._id ≠ a._id) ∧ ∀ x ∈ l2, x._id ≠ a._id := by
  obtain ⟨l1, l2, rfl⟩ := List.append_of_mem ha
  refine ⟨l1, l2, rfl, ?_, ?_⟩
  · intro x hx hxe
    rw [List.map_append, List.map_cons] at hid
    have hd := (List.nodup_append.mp hid).2.2
    exact hd (List.mem_map.mpr ⟨x, hx, hxe⟩) (List.mem_cons_self _ _)
  · intro x hx hxe
    rw [List.map_append, List.map_cons] at hid
    have hc := (List.nodup_cons.mp (List.nodup_append.mp hid).2.1).1
    exact hc (List.mem_map.mpr ⟨x, hx, hxe⟩)

theorem findOneAndUpdate_mem (q : Alert → Bool) (update : Alert → Alert) (l : List Alert) :
    ∀ x ∈ (findOneAndUpdate q update l).2, x ∈ l ∨ ∃ y ∈ l, x = update y := by
  induction l with
  | nil => simp [findOneAndUpdate]
  | cons a as ih =>
    intro x hx
    unfold findOneAndUpdate at hx
    split at hx
    · rcases List.mem_cons.mp hx with rfl | hx
      · exact Or.inr ⟨a, List.mem_cons_self _ _, rfl⟩
      · exact Or.inl (List.mem_cons_of_mem _ hx)
    · rcases List.mem_cons.mp hx with rfl | hx
      · exact Or.inl (List.mem_cons_self _ _)
      · rcases ih x hx with h | ⟨y, hy, rfl⟩
        · exact Or.inl (List.mem_cons_of_mem _ h)
        · exact Or.inr ⟨y, List.mem_cons_of_mem _ hy, rfl⟩

theorem findOneAndDelete_mem (q : Alert → Bool) (l : List Alert) :
    ∀ x ∈ (findOneAndDelete q l).2, x ∈ l := by
  induction l with
  | nil => simp [findOneAndDelete]
  | cons a as ih =>
    intro x hx
    unfold findOneAndDelete at hx
    split at hx
    · exact List.mem_cons_of_mem _ hx
    · rcases List.mem_cons.mp hx with rfl | hx
      · exact List.mem_cons_self _ _
      · exact List.mem_cons_of_mem _ (ih x hx)

/-- The ledger after `resolveAlert` holds alerts of the ledger before, or such
alerts with resolved and resolvedAt set. -/
theorem resolveAlert_mem (alerts : List Alert) (userId id : Nat) (now : Int) :
    ∀ x ∈ (resolveAlert alerts userId id now).2,
      x ∈ alerts ∨ ∃ y ∈ alerts, x = { y with resolved := true, resolvedAt := some now } := by
  intro x hx
  unfold resolveAlert at hx
  have hm := findOneAndUpdate_mem (fun a => decide (a._id = id) && decide (a.userId = userId))
    (fun a => { a with resolved := true, resolvedAt := some now }) alerts
  rcases hfo : findOneAndUpdate (fun a => decide (a._id = id) && decide (a.userId = userId))
    (fun a => { a with resolved := true, resolvedAt := some now }) alerts with ⟨_ | al, l2⟩
  · rw [hfo] at hx
    exact Or.inl hx
  · rw [hfo] at hx hm
    exact hm x hx

/-- The ledger after `deleteAlert` holds only alerts of the ledger before. -/
theorem deleteAlert_mem (alerts : List Alert) (userId id : Nat) :
    ∀ x ∈ (deleteAlert alerts userId id).2, x ∈ alerts := by
  intro x hx
  unfold deleteAlert at hx
  have hm := findOneAndDelete_mem (fun a => decide (a._id = id) && decide (a.userId = userId))
    alerts
  rcases hfo : findOneAndDelete (fun a => decide (a._id = id) && decide (a.userId = userId))
    alerts with ⟨_ | al, l2⟩
  · rw [hfo] at hx
    exact hx
  · rw [hfo] at hx hm
    exact hm x hx

/-- The ledger after `createAlert` holds the alerts of the ledger before and
possibly one new alert, unresolved and without resolvedAt. -/
theorem createAlert_mem (alerts : List Alert) (userId : Nat) (body : AlertBody) (newId : Nat)
    (now : Int) :
    ∀ x ∈ (createAlert alerts userId body newId now).2,
      x ∈ alerts ∨ (x.resolved = false ∧ x.resolvedAt = none) := by
  intro x hx
  rcases createAlert_cases alerts userId body newId now with
    ⟨-, h⟩ | ⟨p, t, th, cv, msg, -, -, -, -, -, -, -, -, -, -, ⟨-, h⟩ | ⟨-, h⟩⟩
  · rw [h] at hx; exact Or.inl hx
  · rw [h] at hx; exact Or.inl hx
  · rw [h] at hx
    rcases List.mem_append.mp hx with hx | hx
    · exact Or.inl hx
    · rw [List.mem_singleton] at hx
      subst hx
      exact Or.inr ⟨rfl, rfl⟩

/-- One day of seeding pushes, for each provider in turn, one document of each
seed type, all owned by the caller. -/
theorem seedDay_keys (tz : TimeZone) (userId : Nat) (random : Nat → ℚ) (ps : List String)
    (date : Int) (k : Nat) :
    (seedDay tz userId random ps date k).map (fun m => (m.provider, m.metricType)) =
        List.product ps seedTypes ∧
      (seedDay tz userId random ps date k).length = 6 * ps.length ∧
      ∀ m ∈ seedDay tz userId random ps date k, m.userId = userId := by
  induction ps generalizing date k with
  | nil => simp [seedDay, List.product]
  | cons p rest ih =>
    obtain ⟨h1, h2, h3⟩ := ih (seedProvider tz userId random p date k).2 (k + 6)
    refine ⟨?_, ?_, ?_⟩
    · simp only [seedDay, List.map_append, h1]
      simp [seedProvider, List.product, seedTypes]
    · simp only [seedDay, List.length_append, h2]
      simp [seedProvider]
      omega
    · intro m hm
      simp only [seedDay, List.mem_append] at hm
      rcases hm with hm | hm
      · simp [seedProvider] at hm
        rcases hm with rfl | rfl | rfl | rfl | rfl | rfl <;> rfl
      · exact h3 m hm

/-- In a zone of constant offset `setHours` keeps the local day. -/
theorem setHours_fixed_day (offset t : Int) :
    Day (LocalTime (TimeZone.fixed offset) (setHours (TimeZone.fixed offset) t 0)) =
        Day (LocalTime (TimeZone.fixed offset) t) ∧
      Day (LocalTime (TimeZone.fixed offset) (setHours (TimeZone.fixed offset) t 12)) =
        Day (LocalTime (TimeZone.fixed offset) t) := by
  unfold setHours UTC LocalTime MakeDate Day TimeZone.fixed msPerDay msPerHour
  simp only []
  constructor <;> omega

/-- In a zone of constant offset every document of one day of seeding, and the
date left behind, lie on the local day of the date the day started from. -/
theorem seedDay_fixed_day (offset : Int) (userId : Nat) (random : Nat → ℚ)
    (ps : List String) (date : Int) (k : Nat) :
    ∀ m ∈ seedDay (TimeZone.fixed offset) userId random ps date k,
      Day (LocalTime (TimeZone.fixed offset) m.timestamp) =
        Day (LocalTime (TimeZone.fixed offset) date) := by
  induction ps generalizing date k with
  | nil => simp [seedDay]
  | cons p rest ih =>
    have h0 := fun t => (setHours_fixed_day offset t).1
    have h12 := fun t => (setHours_fixed_day offset t).2
    intro m hm
    simp only [seedDay, List.mem_append] at hm
    rcases hm with hm | hm
    · simp [seedProvider] at hm
      rcases hm with rfl | rfl | rfl | rfl | rfl | rfl <;> simp only [h0, h12]
    · rw [ih _ _ m hm]
      simp only [seedProvider, h0, h12]

/-- In a zone of constant offset `setDate(getDate() - d)` moves the local day
back by `d`. -/
theorem setDateBack_fixed_day (offset now : Int) (d : Int) :
    Day (LocalTime (TimeZone.fixed offset) (setDateBack (TimeZone.fixed offset) now d)) =
      Day (LocalTime (TimeZone.fixed offset) now) - d := by
  unfold setDateBack
  simp only []
  rw [makeDate_day_sub]
  unfold UTC LocalTime Day TimeZone.fixed msPerDay
  simp only []
  omega

theorem seedDays_length (tz : TimeZone) (userId : Nat) (random : Nat → ℚ) (now : Int)
    (n day k : Nat) : (seedDays tz userId random now n day k).length = 24 * n := by
  induction n generalizing day k with
  | zero => simp [seedDays]
  | succ n ih =>
    simp only [seedDays, List.length_append, ih,
      (seedDay_keys tz userId random providers _ _).2.1]
    simp [providers]
    omega

/-- The seven iterations of the loop over days, one block of documents each. -/
theorem seedDays_blocks (tz : TimeZone) (userId : Nat) (random : Nat → ℚ) (now : Int) :
    seedDays tz userId random now 7 0 0 =
      (List.range 7).flatMap (fun d =>
        seedDay tz userId random providers (setDateBack tz now (d : Nat)) (24 * d)) := by
  have hr : List.range 7 = [0, 1, 2, 3, 4, 5, 6] := by decide
  rw [hr]
  simp [seedDays, List.flatMap, providers]

theorem seedCalls_length (tz : TimeZone) (userId : Nat) (calls : List (Int × (Nat → ℚ)))
    (store : List Metric) :
    (seedCalls tz userId calls store).length = store.length + 168 * calls.length ∧
      store <+: seedCalls tz userId calls store := by
  induction calls generalizing store with
  | nil => simp [seedCalls]
  | cons c rest ih =>
    obtain ⟨now, random⟩ := c
    obtain ⟨h1, h2⟩ := ih (seedMetrics tz store userId now random).2
    refine ⟨?_, ?_⟩
    · simp only [seedCalls, h1, List.length_cons]
      simp only [seedMetrics, List.length_append, seedDays_length]
      omega
    · simp only [seedCalls]
      exact List.IsPrefix.trans (List.prefix_append _ _) h2

/-- After `clearMetrics` no sample of the caller passes a query that asks for
the caller's samples. -/
theorem filter_cleared (store : List Metric) (userId : Nat) (p : Metric → Bool)
    (hp : ∀ m, p m = true → m.userId = userId) :
    (clearMetrics store userId).2.filter p = [] := by
  rw [List.eq_nil_iff_forall_not_mem]
  intro m hm
  obtain ⟨h1, h2⟩ := List.mem_filter.mp hm
  have h3 := (List.mem_filter.mp h1).2
  simp [hp m h2] at h3

/-- In a zone of constant offset `setHours` lands on the given local hour. -/
theorem setHours_fixed_time (offset t : Int) :
    TimeWithinDay (LocalTime (TimeZone.fixed offset) (setHours (TimeZone.fixed offset) t 0)) = 0 ∧
      TimeWithinDay (LocalTime (TimeZone.fixed offset) (setHours (TimeZone.fixed offset) t 12)) =
        12 * msPerHour := by
  unfold setHours UTC LocalTime MakeDate Day TimeWithinDay TimeZone.fixed msPerDay msPerHour
  simp only []
  constructor <;> omega

/-- In a zone of constant offset the billing documents of a day of seeding are
stamped at local midnight and the others at local noon. -/
theorem seedDay_fixed_stamp (offset : Int) (userId : Nat) (random : Nat → ℚ)
    (ps : List String) (date : Int) (k : Nat) :
    ∀ m ∈ seedDay (TimeZone.fixed offset) userId random ps date k,
      TimeWithinDay (LocalTime (TimeZone.fixed offset) m.timestamp) =
        if m.metricType = "billing" then 0 else 12 * msPerHour := by
  induction ps generalizing date k with
  | nil => simp [seedDay]
  | cons p rest ih =>
    have h0 := fun t => (setHours_fixed_time offset t).1
    have h12 := fun t => (setHours_fixed_time offset t).2
    intro m hm
    simp only [seedDay, List.mem_append] at hm
    rcases hm with hm | hm
    · simp [seedProvider] at hm
      rcases hm with rfl | rfl | rfl | rfl | rfl | rfl
      · simp only [h0]; rfl
      · simp only [h12]; rfl
      · simp only [h12]; rfl
      · simp only [h12]; rfl
      · simp only [h12]; rfl
      · simp only [h12]; rfl
    · exact ih _ _ m hm

/-- The documents pushed by one `seedMetrics` call are those of its seven
day blocks. -/
theorem mem_seedDays (tz : TimeZone) (userId : Nat) (random : Nat → ℚ) (now : Int)
    (m : Metric) :
    m ∈ seedDays tz userId random now 7 0 0 ↔
      ∃ d : Nat, d < 7 ∧
        m ∈ seedDay tz userId random providers (setDateBack tz now (d : Nat)) (24 * d) := by
  rw [seedDays_blocks, List.mem_flatMap]
  constructor
  · rintro ⟨d, hd, hm⟩
    exact ⟨d, List.mem_range.mp hd, hm⟩
  · rintro ⟨d, hd, hm⟩
    exact ⟨d, List.mem_range.mpr hd, hm⟩

theorem mem_seededToday (tz : TimeZone) (userId : Nat) (random : Nat → ℚ) (now : Int)
    (m : Metric) (hm : m ∈ seededToday tz userId random now) :
    m ∈ seedDays tz userId random now 7 0 0 := by
  rw [mem_seedDays]
  refine ⟨0, by decide, ?_⟩
  simpa [seededToday] using hm

/-- In a zone of constant offset, a sample on the local day of the request is
inside the 24-hour window, and a sample on an earlier local day is older than
one on a later local day. -/
theorem fixed_day_facts (offset t1 t2 : Int) :
    (Day (LocalTime (TimeZone.fixed offset) t1) = Day (LocalTime (TimeZone.fixed offset) t2) →
      t2 - dayMs ≤ t1) ∧
    (Day (LocalTime (TimeZone.fixed offset) t1) < Day (LocalTime (TimeZone.fixed offset) t2) →
      t1 < t2) ∧
    (Day (LocalTime (TimeZone.fixed offset) t1) = Day (LocalTime (TimeZone.fixed offset) t2) →
      TimeWithinDay (LocalTime (TimeZone.fixed offset) t1) <
        TimeWithinDay (LocalTime (TimeZone.fixed offset) t2) → t1 < t2) := by
  unfold Day TimeWithinDay LocalTime TimeZone.fixed msPerDay dayMs
  simp only []
  refine ⟨?_, ?_, ?_⟩ <;> intro h <;> omega

/-- After a seed into a store that held no sample of the owner, a dashboard
read on the same local day, in a zone of constant offset, groups exactly the
day-0 samples that pass the provider parameter. -/
theorem seeded_latest (offset : Int) (store : List Metric) (userId : Nat)
    (now0 now1 : Int) (random : Nat → ℚ) (q : Option String)
    (hempty : ∀ m ∈ store, m.userId ≠ userId)
    (hday : Day (LocalTime (TimeZone.fixed offset) now1) =
      Day (LocalTime (TimeZone.fixed offset) now0)) :
    (∀ g ∈ latestMetrics (seedMetrics (TimeZone.fixed offset) store userId now0 random).2
        userId q now1,
      ∃ m ∈ seededToday (TimeZone.fixed offset) userId random now0, g = m.firstOf ∧
        (q = none ∨ q = some "" ∨ q = some "all" ∨ q = some m.provider)) ∧
    (∀ m ∈ seededToday (TimeZone.fixed offset) userId random now0,
      (q = none ∨ q = some "" ∨ q = some "all" ∨ q = some m.provider) →
      ∃ g ∈ latestMetrics (seedMetrics (TimeZone.fixed offset) store userId now0 random).2
        userId q now1, g._id = m.groupId) := by
  have hD0 : ∀ m ∈ seededToday (TimeZone.fixed offset) userId random now0,
      Day (LocalTime (TimeZone.fixed offset) m.timestamp) =
        Day (LocalTime (TimeZone.fixed offset) now0) := by
    intro m hm
    unfold seededToday at hm
    rw [seedDay_fixed_day offset userId random providers _ _ m hm, setDateBack_fixed_day]
    simp
  have hwin : ∀ m ∈ seededToday (TimeZone.fixed offset) userId random now0,
      (q = none ∨ q = some "" ∨ q = some "all" ∨ q = some m.provider) →
      m ∈ (seedMetrics (TimeZone.fixed offset) store userId now0 random).2 ∧
        InWindow userId q now1 m := by
    intro m hm hq
    refine ⟨?_, ?_, ?_, hq⟩
    · exact List.mem_append_right _ (mem_seededToday _ _ _ _ m hm)
    · exact (seedDay_keys _ userId random providers _ _).2.2 m hm
    · exact (fixed_day_facts offset m.timestamp now1).1 (by rw [hD0 m hm, hday])
  refine ⟨?_, ?_⟩
  · intro g hg
    obtain ⟨m, hm, hgm, hmax⟩ := groupFirst_latest _ (sortTimestampDesc_pairwise _) g hg
    have hm2 := (mem_matched _ userId q now1 m).mp hm
    have hseed : m ∈ seedDays (TimeZone.fixed offset) userId random now0 7 0 0 := by
      rcases List.mem_append.mp hm2.1 with h | h
      · exact absurd hm2.2.1 (hempty m h)
      · exact h
    obtain ⟨d, hd, hmd⟩ := (mem_seedDays _ _ _ _ m).mp hseed
    -- the day-0 sample of the same pair
    have hkey : (m.provider, m.metricType) ∈
        (seededToday (TimeZone.fixed offset) userId random now0).map
          (fun x => (x.provider, x.metricType)) := by
      unfold seededToday
      rw [(seedDay_keys _ userId random providers _ _).1,
        ← (seedDay_keys (TimeZone.fixed offset) userId random providers
          (setDateBack (TimeZone.fixed offset) now0 (d : Nat)) (24 * d)).1]
      exact List.mem_map.mpr ⟨m, hmd, rfl⟩
    obtain ⟨m0, hm0, hm0k⟩ := List.mem_map.mp hkey
    have hp0 : m0.provider = m.provider := congrArg Prod.fst hm0k
    have ht0 : m0.metricType = m.metricType := congrArg Prod.snd hm0k
    have hq0 : q = none ∨ q = some "" ∨ q = some "all" ∨ q = some m0.provider := by
      rw [hp0]; exact hm2.2.2.2
    have hin0 := hwin m0 hm0 hq0
    have hle : m0.timestamp ≤ m.timestamp :=
      hmax m0 ((mem_matched _ userId q now1 m0).mpr hin0)
        (by simp [Metric.groupId, hp0, ht0])
    have hDm : Day (LocalTime (TimeZone.fixed offset) m.timestamp) =
        Day (LocalTime (TimeZone.fixed offset) now0) - d := by
      rw [seedDay_fixed_day offset userId random providers _ _ m hmd, setDateBack_fixed_day]
    have hd0 : d = 0 := by
      by_contra hne
      have hlt : Day (LocalTime (TimeZone.fixed offset) m.timestamp) <
          Day (LocalTime (TimeZone.fixed offset) m0.timestamp) := by
        rw [hDm, hD0 m0 hm0]
        have : (0 : Int) < (d : Int) := by exact_mod_cast Nat.pos_of_ne_zero hne
        omega
      have := (fixed_day_facts offset m.timestamp m0.timestamp).2.1 hlt
      omega
    subst hd0
    refine ⟨m, by simpa [seededToday] using hmd, hgm, hm2.2.2.2⟩
  · intro m hm hq
    have hin := hwin m hm hq
    exact groupFirst_covers [] _ m ((mem_matched _ userId q now1 m).mpr hin) (by simp)

/-! ## Claims -/

/-- C1: the metrics list of getDashboard holds exactly one entry for each
(provider, metricType) pair that has a sample of the owner in the trailing 24
hours (passing the provider parameter), no entry for any other pair, and each
entry carries the value, unit and timestamp of a sample of its pair whose
timestamp is greatest among the pair's samples in the window; two stores that
agree on the owner's samples of the last 24 hours give the same list, so older
samples never contribute. -/
theorem getDashboard_metrics_latest_per_pair (metrics : List Metric) (alerts : List Alert)
    (userId : Nat) (provider : Option String) (now : Int) :
    ∃ d, (getDashboard metrics alerts userId provider now).data = some d ∧
      (d.metrics.map (fun g => g._id)).Nodup ∧
      (∀ m ∈ metrics, InWindow userId provider now m →
        ∃ g ∈ d.metrics, g._id = ⟨m.provider, m.metricType⟩) ∧
      (∀ g ∈ d.metrics, ∃ m ∈ metrics, InWindow userId provider now m ∧
        g._id = ⟨m.provider, m.metricType⟩ ∧
        g.value = m.value ∧ g.unit = m.unit ∧ g.timestamp = m.timestamp ∧
        ∀ x ∈ metrics, InWindow userId provider now x →
          x.provider = m.provider → x.metricType = m.metricType →
          x.timestamp ≤ m.timestamp) ∧
      (∀ (metrics2 : List Metric) (alerts2 : List Alert),
        metrics2.filter (fun m => decide (m.userId = userId) && decide (now - dayMs ≤ m.timestamp)) =
          metrics.filter (fun m => decide (m.userId = userId) && decide (now - dayMs ≤ m.timestamp)) →
        ∃ d2, (getDashboard metrics2 alerts2 userId provider now).data = some d2 ∧
          d2.metrics = d.metrics) := by
  refine ⟨_, rfl, ?_, ?_, ?_, ?_⟩
  · exact (groupFirst_keys [] _).1
  · intro m hm hw
    have hmem := (mem_matched metrics userId provider now m).mpr ⟨hm, hw⟩
    exact groupFirst_covers [] _ m hmem (by simp)
  · intro g hg
    obtain ⟨m, hm, hgm, hmax⟩ :=
      groupFirst_latest _ (sortTimestampDesc_pairwise _) g hg
    have hm2 := (mem_matched metrics userId provider now m).mp hm
    refine ⟨m, hm2.1, hm2.2, ?_, ?_, ?_, ?_, ?_⟩
    · rw [hgm]; rfl
    · rw [hgm]; rfl
    · rw [hgm]; rfl
    · rw [hgm]; rfl
    · intro x hx hxw hp ht
      apply hmax x ((mem_matched metrics userId provider now x).mpr ⟨hx, hxw⟩)
      simp [Metric.groupId, hp, ht]
  · intro metrics2 alerts2 h
    exact ⟨_, rfl, latestMetrics_window_only metrics2 metrics userId provider now h⟩

/-- C5, as stated, fails for the empty parameter (`?provider=`): it is present
and different from 'all', yet no filter is applied and an aws entry is
returned. -/
theorem getDashboard_empty_provider_unfiltered :
    (some "" : Option String) ≠ none ∧ (some "" : Option String) ≠ some "all" ∧
    ∃ d, (getDashboard [⟨1, "aws", "billing", 100, "USD", "", "", 95000000⟩] [] 1
        (some "") 100000000).data = some d ∧
      ∃ g ∈ d.metrics, g._id.provider ≠ "" := by
  refine ⟨by decide, by decide, _, rfl, ⟨⟨"aws", "billing"⟩, 100, "USD", 95000000⟩, ?_, ?_⟩
  · decide
  · decide

/-- C5, amended: when the provider parameter is present, non-empty and
different from 'all', every entry of the returned metrics has that provider,
and the metrics and the summary equal those computed, without a filter, over
the store restricted to that provider's samples; when the parameter is absent,
empty or 'all', the response equals the one of the absent parameter and every
sample of the owner in the window, of whatever provider, has an entry for its
pair. -/
theorem getDashboard_provider_filter (metrics : List Metric) (alerts : List Alert)
    (userId : Nat) (provider : Option String) (now : Int) :
    ∃ d, (getDashboard metrics alerts userId provider now).data = some d ∧
      (∀ p, provider = some p → p ≠ "" → p ≠ "all" →
        (∀ g ∈ d.metrics, g._id.provider = p) ∧
        ∃ d2, (getDashboard (metrics.filter (fun m => decide (m.provider = p))) alerts userId
            none now).data = some d2 ∧
          d.metrics = d2.metrics ∧ d.summary = d2.summary) ∧
      ((provider = none ∨ provider = some "" ∨ provider = some "all") →
        getDashboard metrics alerts userId provider now =
          getDashboard metrics alerts userId none now ∧
        ∀ m ∈ metrics, m.userId = userId → now - dayMs ≤ m.timestamp →
          ∃ g ∈ d.metrics, g._id = ⟨m.provider, m.metricType⟩) := by
  refine ⟨_, rfl, ?_, ?_⟩
  · intro p hp h1 h2
    subst hp
    have hfil : metrics.filter (matchStage userId (some p) (now - 24 * 60 * 60 * 1000)) =
        (metrics.filter (fun m => decide (m.provider = p))).filter
          (matchStage userId none (now - 24 * 60 * 60 * 1000)) := by
      rw [List.filter_filter]
      apply List.filter_congr
      intro m _
      by_cases hm : m.provider = p <;>
        simp [matchStage, dashboardQuery, truthy, h1, h2, hm, Bool.and_comm, Bool.and_assoc]
    have hlat : latestMetrics metrics userId (some p) now =
        latestMetrics (metrics.filter (fun m => decide (m.provider = p))) userId none now := by
      unfold latestMetrics
      simp only []
      rw [hfil]
    refine ⟨?_, _, rfl, hlat, ?_⟩
    · intro g hg
      obtain ⟨m, hm, hgm, -⟩ := groupFirst_latest _ (sortTimestampDesc_pairwise _) g hg
      have hw := ((mem_matched metrics userId (some p) now m).mp hm).2
      have hmp : m.provider = p := by
        rcases hw.2.2 with h | h | h | h
        · exact absurd h (by simp)
        · exact absurd (Option.some.inj h) h1
        · exact absurd (Option.some.inj h) h2
        · exact (Option.some.inj h).symm
      rw [hgm]; exact hmp
    · show summarize _ = summarize _
      rw [hlat]
  · intro hp
    have hq : matchStage userId provider (now - 24 * 60 * 60 * 1000) =
        matchStage userId none (now - 24 * 60 * 60 * 1000) := by
      funext m
      rcases hp with h | h | h <;> subst h <;> simp [matchStage, dashboardQuery, truthy]
    have hlat : latestMetrics metrics userId provider now =
        latestMetrics metrics userId none now := by
      unfold latestMetrics
      simp only []
      rw [hq]
    refine ⟨?_, ?_⟩
    · unfold getDashboard
      simp only []
      rw [hlat]
    · intro m hm hu ht
      have hmem := (mem_matched metrics userId provider now m).mpr
        ⟨hm, hu, ht, by rcases hp with h | h | h <;> simp [h]⟩
      exact groupFirst_covers [] _ m hmem (by simp)

/-- C5 (amended) at a concrete store: with `provider=gcp` the only entry is the
gcp one and totalBilling is "50.00". -/
theorem getDashboard_provider_filter_example :
    ∃ d, (getDashboard
        [⟨1, "aws", "billing", 100, "USD", "", "", 95000000⟩,
         ⟨1, "gcp", "billing", 50, "USD", "", "", 95000001⟩]
        [] 1 (some "gcp") 100000000).data = some d ∧
      (∀ g ∈ d.metrics, g._id.provider = "gcp") ∧
      d.summary.totalBilling = some "50.00" := by
  obtain ⟨d, hd, hsome, -⟩ := getDashboard_provider_filter
    [⟨1, "aws", "billing", 100, "USD", "", "", 95000000⟩,
     ⟨1, "gcp", "billing", 50, "USD", "", "", 95000001⟩]
    [] 1 (some "gcp") 100000000
  obtain ⟨hall, d2, hd2, -, hsum⟩ := hsome "gcp" rfl (by decide) (by decide)
  refine ⟨d, hd, hall, ?_⟩
  rw [hsum]
  have hd3 : d2 = (⟨summarize _, latestMetrics _ 1 none 100000000, recentAlerts [] 1⟩ : Dashboard) :=
    (Option.some.inj hd2).symm
  have hlat : latestMetrics (List.filter (fun m : Metric => decide (m.provider = "gcp"))
      [⟨1, "aws", "billing", 100, "USD", "", "", 95000000⟩,
       ⟨1, "gcp", "billing", 50, "USD", "", "", 95000001⟩]) 1 none 100000000 =
      [⟨⟨"gcp", "billing"⟩, 50, "USD", 95000001⟩] := by decide
  rw [hd3, hlat]
  have e : sumValues (ofType "billing" [⟨⟨"gcp", "billing"⟩, 50, "USD", 95000001⟩]) = 50 := by
    simp [sumValues, ofType, List.filter]
  show toFixed2 (sumValues (ofType "billing" [⟨⟨"gcp", "billing"⟩, 50, "USD", 95000001⟩])) = _
  rw [e]
  decide

/-- C9: owner isolation. For two stores that agree on the samples and alerts
of owner U, in the same order, and differ arbitrarily in the records of other
owners, getDashboard, getBilling, getResources, getPerformance, getAllMetrics
and getAlerts performed by U answer identically, for all parameters; every
sample or alert in a result is owned by U, and every dashboard entry is taken
from a sample owned by U. -/
theorem reads_owner_isolated (tz : TimeZone) (m1 m2 : List Metric) (a1 a2 : List Alert)
    (U : Nat)
    (hm : m1.filter (fun m => decide (m.userId = U)) = m2.filter (fun m => decide (m.userId = U)))
    (ha : a1.filter (fun a => decide (a.userId = U)) = a2.filter (fun a => decide (a.userId = U))) :
    (∀ provider now, getDashboard m1 a1 U provider now = getDashboard m2 a2 U provider now) ∧
    (∀ provider days now,
      getBilling tz m1 U provider days now = getBilling tz m2 U provider days now ∧
      getResources tz m1 U provider days now = getResources tz m2 U provider days now ∧
      getPerformance tz m1 U provider days now = getPerformance tz m2 U provider days now) ∧
    (∀ provider days type now,
      getAllMetrics tz m1 U provider days type now =
        getAllMetrics tz m2 U provider days type now) ∧
    (∀ resolved limit, getAlerts a1 U resolved limit = getAlerts a2 U resolved limit) ∧
    (∀ provider now d, (getDashboard m1 a1 U provider now).data = some d →
      (∀ g ∈ d.metrics, ∃ m ∈ m1, m.userId = U ∧ g = m.firstOf) ∧
      (∀ a ∈ d.alerts, a ∈ a1 ∧ a.userId = U)) ∧
    (∀ provider days now l x,
      ((getBilling tz m1 U provider days now).data = some l → x ∈ l → x ∈ m1 ∧ x.userId = U) ∧
      ((getResources tz m1 U provider days now).data = some l → x ∈ l →
        x ∈ m1 ∧ x.userId = U) ∧
      ((getPerformance tz m1 U provider days now).data = some l → x ∈ l →
        x ∈ m1 ∧ x.userId = U) ∧
      (∀ type, (getAllMetrics tz m1 U provider days type now).data = some l → x ∈ l →
        x ∈ m1 ∧ x.userId = U)) ∧
    (∀ resolved limit l, (getAlerts a1 U resolved limit).data = some l →
      ∀ a ∈ l, a ∈ a1 ∧ a.userId = U) := by
  -- every query of the handlers, on either store, sees only the owner's part
  have hM : ∀ (p : Metric → Bool), (∀ x, p x = true → decide (x.userId = U) = true) →
      m1.filter p = m2.filter p := by
    intro p hp
    rw [filter_through m1 p _ hp, filter_through m2 p _ hp, hm]
  have hA : ∀ (p : Alert → Bool), (∀ x, p x = true → decide (x.userId = U) = true) →
      a1.filter p = a2.filter p := by
    intro p hp
    rw [filter_through a1 p _ hp, filter_through a2 p _ hp, ha]
  refine ⟨?_, ?_, ?_, ?_, ?_, ?_, ?_⟩
  · intro provider now
    have e1 : latestMetrics m1 U provider now = latestMetrics m2 U provider now := by
      unfold latestMetrics
      simp only []
      rw [hM _ (by intro x hx; simp [matchStage, dashboardQuery] at hx; simp [hx.1.1])]
    have e2 : recentAlerts a1 U = recentAlerts a2 U := by
      unfold recentAlerts
      rw [hA _ (by intro x hx; simp at hx; simp [hx.1])]
    unfold getDashboard
    simp only []
    rw [e1, e2]
  · intro provider days now
    refine ⟨?_, ?_, ?_⟩
    · unfold getBilling
      simp only []
      rw [hM _ (by intro x hx; simp at hx; simp [hx.1.1.1])]
    · unfold getResources
      simp only []
      rw [hM _ (by intro x hx; simp at hx; simp [hx.1.1.1])]
    · unfold getPerformance
      simp only []
      rw [hM _ (by intro x hx; simp at hx; simp [hx.1.1.1])]
  · intro provider days type now
    unfold getAllMetrics
    simp only []
    rw [hM _ (by intro x hx; simp at hx; simp [hx.1.1.1])]
  · intro resolved limit
    unfold getAlerts
    rw [hA _ (by intro x hx; simp at hx; simp [hx.1])]
  · intro provider now d hd
    have hd2 : d = (⟨summarize _, latestMetrics m1 U provider now, recentAlerts a1 U⟩ :
        Dashboard) := (Option.some.inj hd).symm
    subst hd2
    refine ⟨?_, ?_⟩
    · intro g hg
      obtain ⟨m, hmem, hgm, -⟩ := groupFirst_latest _ (sortTimestampDesc_pairwise _) g hg
      have h2 := (mem_matched m1 U provider now m).mp hmem
      exact ⟨m, h2.1, h2.2.1, hgm⟩
    · intro a hmem
      have hmem2 : a ∈ recentAlerts a1 U := hmem
      unfold recentAlerts at hmem2
      have h1 := mem_limitDocs _ _ _ hmem2
      have h2 := List.mem_filter.mp ((sortCreatedAtDesc_perm _).mem_iff.mp h1)
      have h3 := h2.2
      simp at h3
      exact ⟨h2.1, h3.1⟩
  · intro provider days now l x
    refine ⟨?_, ?_, ?_, ?_⟩
    · intro hl hx
      have h := mem_okData_filter _ _ l x hl hx
      have h3 := h.2
      simp at h3
      exact ⟨h.1, h3.1.1.1⟩
    · intro hl hx
      have h := mem_okData_filter _ _ l x hl hx
      have h3 := h.2
      simp at h3
      exact ⟨h.1, h3.1.1.1⟩
    · intro hl hx
      have h := mem_okData_filter _ _ l x hl hx
      have h3 := h.2
      simp at h3
      exact ⟨h.1, h3.1.1.1⟩
    · intro type hl hx
      have h := mem_okData_filter _ _ l x hl hx
      have h3 := h.2
      simp at h3
      exact ⟨h.1, h3.1.1.1⟩
  · intro resolved limit l hl a hmem
    have hl2 := Option.some.inj hl
    subst hl2
    have h1 := mem_limitDocs _ _ _ hmem
    have h2 := List.mem_filter.mp ((sortCreatedAtDesc_perm _).mem_iff.mp h1)
    have h3 := h2.2
    simp at h3
    exact ⟨h2.1, h3.1⟩

/-- C9 at concrete stores: they hold the same sample and the same alert of
owner 1 and different records of owner 2; owner 1 reads the same dashboard,
series and alerts from both. -/
theorem reads_owner_isolated_witness :
    ([⟨1, "aws", "billing", 100, "USD", "", "", 95000000⟩,
      ⟨2, "aws", "billing", 900, "USD", "", "", 96000000⟩] : List Metric) ≠
      [⟨2, "gcp", "cpu", 5, "%", "", "", 97000000⟩,
       ⟨1, "aws", "billing", 100, "USD", "", "", 95000000⟩] ∧
    getDashboard
        [⟨1, "aws", "billing", 100, "USD", "", "", 95000000⟩,
         ⟨2, "aws", "billing", 900, "USD", "", "", 96000000⟩]
        [⟨10, 1, "aws", "cost", 50, 100, "over budget", "high", true, false, 94000000, none⟩,
         ⟨11, 2, "aws", "cost", 50, 900, "other", "low", true, false, 94000001, none⟩]
        1 none 100000000 =
      getDashboard
        [⟨2, "gcp", "cpu", 5, "%", "", "", 97000000⟩,
         ⟨1, "aws", "billing", 100, "USD", "", "", 95000000⟩]
        [⟨10, 1, "aws", "cost", 50, 100, "over budget", "high", true, false, 94000000, none⟩]
        1 none 100000000 ∧
    getAllMetrics (TimeZone.fixed 0)
        [⟨1, "aws", "billing", 100, "USD", "", "", 95000000⟩,
         ⟨2, "aws", "billing", 900, "USD", "", "", 96000000⟩]
        1 "aws" none none 100000000 =
      getAllMetrics (TimeZone.fixed 0)
        [⟨2, "gcp", "cpu", 5, "%", "", "", 97000000⟩,
         ⟨1, "aws", "billing", 100, "USD", "", "", 95000000⟩]
        1 "aws" none none 100000000 ∧
    getAlerts
        [⟨10, 1, "aws", "cost", 50, 100, "over budget", "high", true, false, 94000000, none⟩,
         ⟨11, 2, "aws", "cost", 50, 900, "other", "low", true, false, 94000001, none⟩]
        1 none none =
      getAlerts
        [⟨10, 1, "aws", "cost", 50, 100, "over budget", "high", true, false, 94000000, none⟩]
        1 none none := by
  have h := reads_owner_isolated (TimeZone.fixed 0)
    [⟨1, "aws", "billing", 100, "USD", "", "", 95000000⟩,
     ⟨2, "aws", "billing", 900, "USD", "", "", 96000000⟩]
    [⟨2, "gcp", "cpu", 5, "%", "", "", 97000000⟩,
     ⟨1, "aws", "billing", 100, "USD", "", "", 95000000⟩]
    [⟨10, 1, "aws", "cost", 50, 100, "over budget", "high", true, false, 94000000, none⟩,
     ⟨11, 2, "aws", "cost", 50, 900, "other", "low", true, false, 94000001, none⟩]
    [⟨10, 1, "aws", "cost", 50, 100, "over budget", "high", true, false, 94000000, none⟩]
    1 (by decide) (by decide)
  exact ⟨by decide, h.1 none 100000000, h.2.2.1 "aws" none none 100000000, h.2.2.2.1 none none⟩

/-- C10, as stated, fails on three requests that carry all five fields: a
threshold of 0 and an empty message are both answered with the 400 response,
and a provider outside the schema's enumeration passes the required-field
check but is not inserted (status 500). -/
theorem createAlert_present_fields_rejected :
    createAlert [] 1 ⟨some "aws", some "cpu", some 0, some 50, some "idle", none⟩ 7 1000 =
      (missingFields, []) ∧
    createAlert [] 1 ⟨some "aws", some "cpu", some 80, some 90, some "", none⟩ 7 1000 =
      (missingFields, []) ∧
    (createAlert [] 1 ⟨some "ibm", some "cpu", some 80, some 90, some "hot", none⟩ 7 1000).1.status
      = 500 ∧
    (createAlert [] 1 ⟨some "ibm", some "cpu", some 80, some 90, some "hot", none⟩ 7 1000).2 = [] := by
  refine ⟨by decide, by decide, by decide, by decide⟩

/-- C10, amended: createAlert answers the validation response (status 400,
'Please provide all required fields') and leaves the ledger unchanged if one of
provider, alertType, message is absent or empty, or threshold or currentValue
is absent. For every request whose provider, alertType and message are
non-empty strings and whose threshold and currentValue are non-zero numbers
the required-field check passes (the answer is not status 400), and the alert
is inserted when provider, alertType and the severity, if one is given, belong
to the enumerations of the schema. -/
theorem createAlert_required_fields (alerts : List Alert) (userId : Nat) (body : AlertBody)
    (newId : Nat) (now : Int) :
    ((body.provider = none ∨ body.provider = some "" ∨
        body.alertType = none ∨ body.alertType = some "" ∨
        body.threshold = none ∨ body.currentValue = none ∨
        body.message = none ∨ body.message = some "") →
      createAlert alerts userId body newId now = (missingFields, alerts)) ∧
    (∀ p t th cv msg, body.provider = some p → body.alertType = some t →
      body.threshold = some th → body.currentValue = some cv → body.message = some msg →
      p ≠ "" → t ≠ "" → th ≠ 0 → cv ≠ 0 → msg ≠ "" →
      (createAlert alerts userId body newId now).1.status ≠ 400 ∧
      (p ∈ alertProviders → t ∈ alertTypes →
        (body.severity = none ∨ body.severity = some "" ∨
          ∃ sv ∈ alertSeverities, body.severity = some sv) →
        ∃ alert, createAlert alerts userId body newId now =
            ({ status := 201, success := true, message := some "Alert created successfully"
               data := some alert }, alerts ++ [alert]) ∧
          alert.userId = userId ∧ alert.provider = p ∧ alert.alertType = t ∧
          alert.threshold = th ∧ alert.currentValue = cv ∧ alert.message = msg)) := by
  obtain ⟨bp, bt, bth, bcv, bm, bs⟩ := body
  refine ⟨?_, ?_⟩
  · intro h
    simp only at h
    unfold createAlert
    rcases h with h | h | h | h | h | h | h | h <;> subst h <;>
      simp [truthy, truthyNum]
  · intro p t th cv msg hp ht hth hcv hmsg p0 t0 th0 cv0 msg0
    simp only at hp ht hth hcv hmsg
    subst hp ht hth hcv hmsg
    have hchk : (!truthy (some p) || !truthy (some t) || !truthyNum (some th) ||
        !truthyNum (some cv) || !truthy (some msg)) = false := by
      simp [truthy, truthyNum, p0, t0, th0, cv0, msg0]
    refine ⟨?_, ?_⟩
    · unfold createAlert
      simp only [hchk]
      simp only [Bool.false_eq_true, if_false]
      split <;> simp
    · intro hpe hte hsv
      have hsev : (if truthy bs then bs.getD "" else "medium") ∈ alertSeverities := by
        rcases hsv with h | h | ⟨sv, hsv1, h⟩
        · subst h; simp [truthy, alertSeverities]
        · subst h; simp [truthy, alertSeverities]
        · subst h
          by_cases he : sv = ""
          · subst he; simp [truthy, alertSeverities]
          · simp [truthy, he, hsv1]
      unfold createAlert
      simp only [hchk]
      simp only [Bool.false_eq_true, if_false, Option.getD_some]
      unfold Alert.create
      rw [if_pos ⟨hpe, hte, msg0, hsev⟩]
      exact ⟨_, rfl, rfl, rfl, rfl, rfl, rfl, rfl⟩

/-- C10 (amended) at concrete requests: a request without message gets the
400 response; a complete request for aws / cpu is inserted. -/
theorem createAlert_required_fields_example :
    createAlert [] 1 ⟨some "aws", some "cpu", some 80, some 90, none, none⟩ 7 1000 =
      (missingFields, []) ∧
    (createAlert [] 1 ⟨some "aws", some "cpu", some 80, some 90, some "hot", none⟩ 7 1000).1.status
      ≠ 400 ∧
    (createAlert [] 1 ⟨some "aws", some "cpu", some 80, some 90, some "hot", none⟩ 7 1000).2.length
      = 1 := by
  have h1 := (createAlert_required_fields [] 1
    ⟨some "aws", some "cpu", some 80, some 90, none, none⟩ 7 1000).1
    (Or.inr (Or.inr (Or.inr (Or.inr (Or.inr (Or.inr (Or.inl rfl)))))))
  have h2 := (createAlert_required_fields [] 1
    ⟨some "aws", some "cpu", some 80, some 90, some "hot", none⟩ 7 1000).2
    "aws" "cpu" 80 90 "hot" rfl rfl rfl rfl rfl (by decide) (by decide) (by decide) (by decide)
    (by decide)
  obtain ⟨alert, hal, -⟩ := h2.2 (by decide) (by decide) (Or.inl rfl)
  refine ⟨h1, h2.1, ?_⟩
  rw [hal]
  rfl

/-- C11, as stated, fails for a supplied empty severity: the request succeeds
and the stored severity is 'medium', not the supplied value. -/
theorem createAlert_empty_severity_medium :
    createAlert [] 1 ⟨some "aws", some "cpu", some 80, some 90, some "hot", some ""⟩ 7 1000 =
      ({ status := 201, success := true, message := some "Alert created successfully"
         data := some ⟨7, 1, "aws", "cpu", 80, 90, "hot", "medium", true, false, 1000, none⟩ },
        [⟨7, 1, "aws", "cpu", 80, 90, "hot", "medium", true, false, 1000, none⟩]) := by
  decide

/-- C11, amended: every successful createAlert (status 201) appends exactly one
alert to the ledger and changes no earlier alert; the new alert is owned by the
authenticated caller, has triggered = true, resolved = false, no resolvedAt,
the supplied provider, alertType, threshold, currentValue and message, and its
severity is the supplied severity, or 'medium' when the severity is absent or
empty. The alert is also the one returned in the response. -/
theorem createAlert_success_effect (alerts : List Alert) (userId : Nat) (body : AlertBody)
    (newId : Nat) (now : Int)
    (hok : (createAlert alerts userId body newId now).1.status = 201) :
    ∃ alert, (createAlert alerts userId body newId now).2 = alerts ++ [alert] ∧
      (createAlert alerts userId body newId now).1.data = some alert ∧
      alert.userId = userId ∧ alert.triggered = true ∧ alert.resolved = false ∧
      alert.resolvedAt = none ∧
      body.provider = some alert.provider ∧ body.alertType = some alert.alertType ∧
      body.threshold = some alert.threshold ∧ body.currentValue = some alert.currentValue ∧
      body.message = some alert.message ∧
      ((body.severity = some alert.severity ∧ alert.severity ≠ "") ∨
        ((body.severity = none ∨ body.severity = some "") ∧ alert.severity = "medium")) := by
  rcases createAlert_cases alerts userId body newId now with
    ⟨-, h⟩ | ⟨p, t, th, cv, msg, hp, ht, hth, hcv, hmsg, -, -, -, -, -, ⟨-, h⟩ | ⟨-, h⟩⟩
  · rw [h] at hok; simp [missingFields] at hok
  · rw [h] at hok; simp at hok
  · rw [h]
    refine ⟨_, rfl, rfl, rfl, rfl, rfl, rfl, hp, ht, hth, hcv, hmsg, ?_⟩
    rcases hs : body.severity with _ | sv
    · right; simp [truthy]
    · by_cases he : sv = ""
      · right; subst he; simp [truthy]
      · left; simp [truthy, he]

/-- C11 (amended) at a concrete request: a high-severity cpu alert of user 1 is
appended behind the alert of user 2 already in the ledger. -/
theorem createAlert_success_effect_witness :
    ∃ alert, (createAlert
        [⟨3, 2, "gcp", "cost", 10, 20, "old", "low", true, false, 500, none⟩] 1
        ⟨some "aws", some "cpu", some 80, some 90, some "hot", some "high"⟩ 7 1000).2 =
        [⟨3, 2, "gcp", "cost", 10, 20, "old", "low", true, false, 500, none⟩] ++ [alert] ∧
      alert.userId = 1 ∧ alert.resolved = false ∧ alert.resolvedAt = none := by
  obtain ⟨alert, h1, -, h2, -, h3, h4, -⟩ := createAlert_success_effect
    [⟨3, 2, "gcp", "cost", 10, 20, "old", "low", true, false, 500, none⟩] 1
    ⟨some "aws", some "cpu", some 80, some 90, some "hot", some "high"⟩ 7 1000 (by decide)
  exact ⟨alert, h1, h2, h3, h4⟩

/-- C12, as stated, fails: a request with a provider outside the enumeration
and all required fields present is answered with status 500, not 400; and an
empty severity, which is outside the enumeration, is accepted and stored as
'medium'. -/
theorem createAlert_bad_provider_500 :
    createAlert [] 1 ⟨some "ibm", some "cpu", some 80, some 90, some "hot", none⟩ 7 1000 =
      ({ status := 500, success := false, message := some "Error creating alert"
         data := none }, []) ∧
    (createAlert [] 1 ⟨some "aws", some "cpu", some 80, some 90, some "hot", some ""⟩ 7
      1000).1.status = 201 := by
  refine ⟨by decide, by decide⟩

/-- C12, amended: a createAlert request with a provider outside {aws, gcp,
azure, digitalocean}, an alertType outside {cost, cpu, memory, storage,
performance, health}, or a non-empty severity outside {low, medium, high,
critical} is answered with success = false and leaves the ledger unchanged; the
status is 400 or 500, and it is 500 ('Error creating alert') whenever provider,
alertType and message are non-empty and threshold and currentValue are
non-zero, that is whenever the required-field check passes. -/
theorem createAlert_malformed (alerts : List Alert) (userId : Nat) (body : AlertBody)
    (newId : Nat) (now : Int)
    (hbad : (∃ p, body.provider = some p ∧ p ∉ alertProviders) ∨
      (∃ t, body.alertType = some t ∧ t ∉ alertTypes) ∨
      (∃ sv, body.severity = some sv ∧ sv ≠ "" ∧ sv ∉ alertSeverities)) :
    (createAlert alerts userId body newId now).1.success = false ∧
    (createAlert alerts userId body newId now).2 = alerts ∧
    ((createAlert alerts userId body newId now).1.status = 400 ∨
      (createAlert alerts userId body newId now).1.status = 500) ∧
    ((∃ p t th cv msg, body.provider = some p ∧ body.alertType = some t ∧
        body.threshold = some th ∧ body.currentValue = some cv ∧ body.message = some msg ∧
        p ≠ "" ∧ t ≠ "" ∧ th ≠ 0 ∧ cv ≠ 0 ∧ msg ≠ "") →
      (createAlert alerts userId body newId now).1 =
        { status := 500, success := false, message := some "Error creating alert"
          data := none }) := by
  rcases createAlert_cases alerts userId body newId now with
    ⟨hf, h⟩ | ⟨p, t, th, cv, msg, hp, ht, hth, hcv, hmsg, -, -, -, -, -, ⟨-, h⟩ | ⟨hv, -⟩⟩
  · rw [h]
    refine ⟨rfl, rfl, Or.inl rfl, ?_⟩
    rintro ⟨p, t, th, cv, msg, hp, ht, hth, hcv, hmsg, p0, t0, th0, cv0, msg0⟩
    rw [hp, ht, hth, hcv, hmsg] at hf
    simp [truthy, truthyNum, p0, t0, th0, cv0, msg0] at hf
  · rw [h]
    exact ⟨rfl, rfl, Or.inr rfl, fun _ => rfl⟩
  · exfalso
    rcases hbad with ⟨p2, hp2, hn⟩ | ⟨t2, ht2, hn⟩ | ⟨sv, hsv, sv0, hn⟩
    · rw [hp] at hp2
      exact hn (Option.some.inj hp2 ▸ hv.1)
    · rw [ht] at ht2
      exact hn (Option.some.inj ht2 ▸ hv.2.1)
    · have := hv.2.2
      rw [hsv] at this
      simp [truthy, sv0] at this
      exact hn this

/-- C12 (amended) at a concrete request: alertType 'disk' is outside the
enumeration; the answer is status 500 and the ledger keeps its one alert. -/
theorem createAlert_malformed_witness :
    (createAlert [⟨3, 2, "gcp", "cost", 10, 20, "old", "low", true, false, 500, none⟩] 1
      ⟨some "aws", some "disk", some 80, some 90, some "full", none⟩ 7 1000).1.status = 500 ∧
    (createAlert [⟨3, 2, "gcp", "cost", 10, 20, "old", "low", true, false, 500, none⟩] 1
      ⟨some "aws", some "disk", some 80, some 90, some "full", none⟩ 7 1000).2 =
      [⟨3, 2, "gcp", "cost", 10, 20, "old", "low", true, false, 500, none⟩] := by
  have h := createAlert_malformed
    [⟨3, 2, "gcp", "cost", 10, 20, "old", "low", true, false, 500, none⟩] 1
    ⟨some "aws", some "disk", some 80, some 90, some "full", none⟩ 7 1000
    (Or.inr (Or.inl ⟨"disk", rfl, by decide⟩))
  refine ⟨?_, h.2.1⟩
  rw [h.2.2.2 ⟨"aws", "disk", 80, 90, "full", rfl, rfl, rfl, rfl, rfl, by decide, by decide,
    by decide, by decide, by decide⟩]

/-- C13: getAlerts answers with a list cut by the cap from the full selection,
which holds every alert of the owner that passes the resolved parameter, each
as often as the ledger holds it, ordered by createdAt descending. Every
returned alert is an alert of the ledger owned by the caller and the returned
list is ordered newest first; with resolved = 'true' every returned alert is
resolved, with resolved = 'false' none is, and without the parameter the full
selection is every alert of the owner, resolved or not. -/
theorem getAlerts_owner_filter_order (alerts : List Alert) (userId : Nat)
    (resolved : Option String) (limit : Option Int) :
    ∃ full l, (getAlerts alerts userId resolved limit).data = some l ∧
      (getAlerts alerts userId resolved limit).status = 200 ∧
      l = limitDocs (limit.getD 50) full ∧
      full.Perm (alerts.filter (fun a => decide (a.userId = userId ∧
        (resolved = none ∨ a.resolved = decide (resolved = some "true"))))) ∧
      full.Pairwise (fun a b => b.createdAt ≤ a.createdAt) ∧
      l.Pairwise (fun a b => b.createdAt ≤ a.createdAt) ∧
      (∀ a ∈ l, a ∈ alerts ∧ a.userId = userId) ∧
      (resolved = some "true" → ∀ a ∈ l, a.resolved = true) ∧
      (resolved = some "false" → ∀ a ∈ l, a.resolved = false) ∧
      (resolved = none →
        full.Perm (alerts.filter (fun a => decide (a.userId = userId))) ∧
        ∀ a ∈ alerts, a.userId = userId → a ∈ full) := by
  have hmem : ∀ a ∈ limitDocs (limit.getD 50) (sortCreatedAtDesc (alerts.filter (fun a =>
      decide (a.userId = userId ∧
        (resolved = none ∨ a.resolved = decide (resolved = some "true")))))),
      a ∈ alerts ∧ a.userId = userId ∧
        (resolved = none ∨ a.resolved = decide (resolved = some "true")) := by
    intro a ha
    have h1 := (limitDocs_sublist _ _).subset ha
    have h2 := List.mem_filter.mp ((sortCreatedAtDesc_perm _).mem_iff.mp h1)
    have h3 := h2.2
    simp only [decide_eq_true_eq] at h3
    exact ⟨h2.1, h3⟩
  refine ⟨sortCreatedAtDesc _, _, by rw [getAlerts_eq]; rfl, rfl, rfl,
    sortCreatedAtDesc_perm _, sortCreatedAtDesc_pairwise _,
    (sortCreatedAtDesc_pairwise _).sublist (limitDocs_sublist _ _),
    fun a ha => ⟨(hmem a ha).1, (hmem a ha).2.1⟩, ?_, ?_, ?_⟩
  · intro hr a ha
    rcases (hmem a ha).2.2 with h | h
    · rw [hr] at h; exact absurd h (by simp)
    · rw [h, hr]; simp
  · intro hr a ha
    rcases (hmem a ha).2.2 with h | h
    · rw [hr] at h; exact absurd h (by simp)
    · rw [h, hr]; decide
  · intro hr
    subst hr
    have e : alerts.filter (fun a => decide (a.userId = userId ∧
        ((none : Option String) = none ∨ a.resolved = decide ((none : Option String) = some "true"))))
        = alerts.filter (fun a => decide (a.userId = userId)) := by
      apply List.filter_congr
      intro a _
      simp
    rw [e]
    refine ⟨sortCreatedAtDesc_perm _, ?_⟩
    intro a ha hu
    rw [(sortCreatedAtDesc_perm _).mem_iff, List.mem_filter]
    exact ⟨ha, by simp [hu]⟩

/-- C13 at a concrete ledger: user 1 has a resolved alert (created at 10) and
two unresolved ones (created at 5 and 20), user 2 has one. Without a filter
user 1 gets the three newest first; with 'false' the two unresolved ones; with
'true' only the resolved one. -/
theorem getAlerts_owner_filter_order_example :
    (getAlerts
        [⟨1, 1, "aws", "cpu", 80, 90, "a", "low", true, false, 5, none⟩,
         ⟨2, 1, "aws", "cpu", 80, 90, "b", "low", true, true, 10, some 11⟩,
         ⟨3, 2, "aws", "cpu", 80, 90, "c", "low", true, false, 15, none⟩,
         ⟨4, 1, "aws", "cpu", 80, 90, "d", "low", true, false, 20, none⟩]
        1 none none).data =
      some [⟨4, 1, "aws", "cpu", 80, 90, "d", "low", true, false, 20, none⟩,
            ⟨2, 1, "aws", "cpu", 80, 90, "b", "low", true, true, 10, some 11⟩,
            ⟨1, 1, "aws", "cpu", 80, 90, "a", "low", true, false, 5, none⟩] ∧
    (getAlerts
        [⟨1, 1, "aws", "cpu", 80, 90, "a", "low", true, false, 5, none⟩,
         ⟨2, 1, "aws", "cpu", 80, 90, "b", "low", true, true, 10, some 11⟩,
         ⟨3, 2, "aws", "cpu", 80, 90, "c", "low", true, false, 15, none⟩,
         ⟨4, 1, "aws", "cpu", 80, 90, "d", "low", true, false, 20, none⟩]
        1 (some "false") none).data =
      some [⟨4, 1, "aws", "cpu", 80, 90, "d", "low", true, false, 20, none⟩,
            ⟨1, 1, "aws", "cpu", 80, 90, "a", "low", true, false, 5, none⟩] ∧
    ∃ l, (getAlerts
        [⟨1, 1, "aws", "cpu", 80, 90, "a", "low", true, false, 5, none⟩,
         ⟨2, 1, "aws", "cpu", 80, 90, "b", "low", true, true, 10, some 11⟩,
         ⟨3, 2, "aws", "cpu", 80, 90, "c", "low", true, false, 15, none⟩,
         ⟨4, 1, "aws", "cpu", 80, 90, "d", "low", true, false, 20, none⟩]
        1 (some "true") none).data = some l ∧
      l = [⟨2, 1, "aws", "cpu", 80, 90, "b", "low", true, true, 10, some 11⟩] ∧
      ∀ a ∈ l, a.resolved = true := by
  obtain ⟨full, l, hl, -, -, -, -, -, -, htrue, -, -⟩ := getAlerts_owner_filter_order
    [⟨1, 1, "aws", "cpu", 80, 90, "a", "low", true, false, 5, none⟩,
     ⟨2, 1, "aws", "cpu", 80, 90, "b", "low", true, true, 10, some 11⟩,
     ⟨3, 2, "aws", "cpu", 80, 90, "c", "low", true, false, 15, none⟩,
     ⟨4, 1, "aws", "cpu", 80, 90, "d", "low", true, false, 20, none⟩]
    1 (some "true") none
  refine ⟨by decide, by decide, l, hl, ?_, htrue rfl⟩
  have : some l = some [(⟨2, 1, "aws", "cpu", 80, 90, "b", "low", true, true, 10, some 11⟩ :
      Alert)] := by
    rw [← hl]; decide
  exact Option.some.inj this

/-- C14, as stated, fails for the supplied limit 0: the store reads it as no
limit and both alerts are returned. -/
theorem getAlerts_limit_zero_unbounded :
    (getAlerts
        [⟨1, 1, "aws", "cpu", 80, 90, "a", "low", true, false, 5, none⟩,
         ⟨2, 1, "aws", "cpu", 80, 90, "b", "low", true, false, 10, none⟩]
        1 none (some 0)).data =
      some [⟨2, 1, "aws", "cpu", 80, 90, "b", "low", true, false, 10, none⟩,
            ⟨1, 1, "aws", "cpu", 80, 90, "a", "low", true, false, 5, none⟩] := by
  decide

/-- C14, amended: let `full` be the owner's alerts passing the resolved
parameter, newest first. getAlerts returns a prefix `l` of `full`, so every
returned alert is at least as new as every matching alert left out. For a
supplied positive limit n the prefix has min(n, |full|) alerts, hence at most
n; without a limit it has min(50, |full|); for the supplied limit 0 there is no
cap and the whole of `full` is returned. -/
theorem getAlerts_cap (alerts : List Alert) (userId : Nat) (resolved : Option String)
    (limit : Option Int) :
    ∃ full l rest, (getAlerts alerts userId resolved limit).data = some l ∧
      full.Perm (alerts.filter (fun a => decide (a.userId = userId ∧
        (resolved = none ∨ a.resolved = decide (resolved = some "true"))))) ∧
      full.Pairwise (fun a b => b.createdAt ≤ a.createdAt) ∧
      full = l ++ rest ∧
      (∀ a ∈ l, ∀ b ∈ rest, b.createdAt ≤ a.createdAt) ∧
      (∀ n : Int, limit = some n → 0 < n →
        l = full.take n.toNat ∧ l.length = min n.toNat full.length ∧ (l.length : Int) ≤ n) ∧
      (limit = none → l = full.take 50 ∧ l.length = min 50 full.length ∧ l.length ≤ 50) ∧
      (limit = some 0 → l = full) := by
  have hsplit : ∀ (n : Int) (full : List Alert),
      full = limitDocs n full ++ (if n = 0 then [] else full.drop n.natAbs) := by
    intro n full
    unfold limitDocs
    split
    · simp
    · exact (List.take_append_drop _ _).symm
  refine ⟨sortCreatedAtDesc _, _, _, by rw [getAlerts_eq]; rfl, sortCreatedAtDesc_perm _,
    sortCreatedAtDesc_pairwise _, hsplit (limit.getD 50) _, ?_, ?_, ?_, ?_⟩
  · have hp := sortCreatedAtDesc_pairwise (alerts.filter (fun a => decide (a.userId = userId ∧
        (resolved = none ∨ a.resolved = decide (resolved = some "true")))))
    rw [hsplit (limit.getD 50) (sortCreatedAtDesc _)] at hp
    exact (List.pairwise_append.mp hp).2.2
  · intro n hn hpos
    subst hn
    have hne : n ≠ 0 := ne_of_gt hpos
    have hnat : n.natAbs = n.toNat := by omega
    have hl : limitDocs ((some n).getD 50) (sortCreatedAtDesc (alerts.filter (fun a =>
        decide (a.userId = userId ∧
          (resolved = none ∨ a.resolved = decide (resolved = some "true")))))) =
        (sortCreatedAtDesc (alerts.filter (fun a => decide (a.userId = userId ∧
          (resolved = none ∨ a.resolved = decide (resolved = some "true")))))).take n.toNat := by
      simp [limitDocs, hne, hnat]
    rw [hl]
    refine ⟨rfl, List.length_take _ _, ?_⟩
    rw [List.length_take]
    omega
  · intro hn
    subst hn
    refine ⟨by simp [limitDocs], ?_, ?_⟩
    · simp [limitDocs, List.length_take]
    · simp [limitDocs, List.length_take]
  · intro hn
    subst hn
    simp [limitDocs]

/-- C14 (amended) at a concrete ledger of three alerts of user 1: with limit 2
the two newest are returned, without a limit all three. -/
theorem getAlerts_cap_example :
    (getAlerts
        [⟨1, 1, "aws", "cpu", 80, 90, "a", "low", true, false, 5, none⟩,
         ⟨2, 1, "aws", "cpu", 80, 90, "b", "low", true, false, 30, none⟩,
         ⟨3, 1, "aws", "cpu", 80, 90, "c", "low", true, false, 20, none⟩]
        1 none (some 2)).data =
      some [⟨2, 1, "aws", "cpu", 80, 90, "b", "low", true, false, 30, none⟩,
            ⟨3, 1, "aws", "cpu", 80, 90, "c", "low", true, false, 20, none⟩] ∧
    ∃ l, (getAlerts
        [⟨1, 1, "aws", "cpu", 80, 90, "a", "low", true, false, 5, none⟩,
         ⟨2, 1, "aws", "cpu", 80, 90, "b", "low", true, false, 30, none⟩,
         ⟨3, 1, "aws", "cpu", 80, 90, "c", "low", true, false, 20, none⟩]
        1 none (some 2)).data = some l ∧ (l.length : Int) ≤ 2 := by
  obtain ⟨full, l, rest, hl, -, -, -, -, hpos, -, -⟩ := getAlerts_cap
    [⟨1, 1, "aws", "cpu", 80, 90, "a", "low", true, false, 5, none⟩,
     ⟨2, 1, "aws", "cpu", 80, 90, "b", "low", true, false, 30, none⟩,
     ⟨3, 1, "aws", "cpu", 80, 90, "c", "low", true, false, 20, none⟩]
    1 none (some 2)
  exact ⟨by decide, l, hl, (hpos 2 rfl (by decide)).2.2⟩

/-- C15: resolveAlert on the id of an alert `a` of the caller, in a ledger
without repeated ids, answers 200 with the updated alert, which has resolved =
true, resolvedAt = the request time and every other field as in `a`; in the
ledger that alert is replaced by the updated one, in place, and every other
alert is unchanged. -/
theorem resolveAlert_own (alerts : List Alert) (a : Alert) (userId : Nat) (now : Int)
    (ha : a ∈ alerts) (hown : a.userId = userId)
    (hid : (alerts.map (fun x => x._id)).Nodup) :
    ∃ l1 l2 a2, alerts = l1 ++ a :: l2 ∧
      resolveAlert alerts userId a._id now =
        ({ status := 200, success := true, message := some "Alert resolved successfully"
           data := some a2 }, l1 ++ a2 :: l2) ∧
      a2.resolved = true ∧ a2.resolvedAt = some now ∧
      a2._id = a._id ∧ a2.userId = a.userId ∧ a2.provider = a.provider ∧
      a2.alertType = a.alertType ∧ a2.threshold = a.threshold ∧
      a2.currentValue = a.currentValue ∧ a2.message = a.message ∧
      a2.severity = a.severity ∧ a2.triggered = a.triggered ∧ a2.createdAt = a.createdAt := by
  obtain ⟨l1, l2, hl, h1, -⟩ := split_at_id alerts a ha hid
  refine ⟨l1, l2, { a with resolved := true, resolvedAt := some now }, hl, ?_,
    rfl, rfl, rfl, rfl, rfl, rfl, rfl, rfl, rfl, rfl, rfl, rfl⟩
  subst hl
  unfold resolveAlert
  rw [findOneAndUpdate_first _ _ l1 l2 a (by simp [hown])
    (fun x hx => by simp [h1 x hx])]

/-- C15 at a concrete ledger: user 1 resolves alert 2 at time 50; alerts 1 and
3 are untouched. -/
theorem resolveAlert_own_witness :
    resolveAlert
        [⟨1, 1, "aws", "cpu", 80, 90, "a", "low", true, false, 5, none⟩,
         ⟨2, 1, "gcp", "cost", 10, 20, "b", "high", true, false, 10, none⟩,
         ⟨3, 2, "aws", "cpu", 80, 90, "c", "low", true, false, 15, none⟩]
        1 2 50 =
      ({ status := 200, success := true, message := some "Alert resolved successfully"
         data := some ⟨2, 1, "gcp", "cost", 10, 20, "b", "high", true, true, 10, some 50⟩ },
        [⟨1, 1, "aws", "cpu", 80, 90, "a", "low", true, false, 5, none⟩,
         ⟨2, 1, "gcp", "cost", 10, 20, "b", "high", true, true, 10, some 50⟩,
         ⟨3, 2, "aws", "cpu", 80, 90, "c", "low", true, false, 15, none⟩]) ∧
    ∃ l1 l2 a2,
      [(⟨1, 1, "aws", "cpu", 80, 90, "a", "low", true, false, 5, none⟩ : Alert),
       ⟨2, 1, "gcp", "cost", 10, 20, "b", "high", true, false, 10, none⟩,
       ⟨3, 2, "aws", "cpu", 80, 90, "c", "low", true, false, 15, none⟩] =
        l1 ++ ⟨2, 1, "gcp", "cost", 10, 20, "b", "high", true, false, 10, none⟩ :: l2 ∧
      (resolveAlert
        [⟨1, 1, "aws", "cpu", 80, 90, "a", "low", true, false, 5, none⟩,
         ⟨2, 1, "gcp", "cost", 10, 20, "b", "high", true, false, 10, none⟩,
         ⟨3, 2, "aws", "cpu", 80, 90, "c", "low", true, false, 15, none⟩]
        1 2 50).2 = l1 ++ a2 :: l2 ∧ a2.resolvedAt = some 50 := by
  obtain ⟨l1, l2, a2, h1, h2, -, h3, -⟩ := resolveAlert_own
    [⟨1, 1, "aws", "cpu", 80, 90, "a", "low", true, false, 5, none⟩,
     ⟨2, 1, "gcp", "cost", 10, 20, "b", "high", true, false, 10, none⟩,
     ⟨3, 2, "aws", "cpu", 80, 90, "c", "low", true, false, 15, none⟩]
    ⟨2, 1, "gcp", "cost", 10, 20, "b", "high", true, false, 10, none⟩ 1 50
    (by decide) rfl (by decide)
  refine ⟨by decide, l1, l2, a2, h1, ?_, h3⟩
  have h4 := congrArg Prod.snd h2
  exact h4

/-- C17: deleteAlert on the id of an alert `a` of the caller, in a ledger
without repeated ids, answers 200, removes exactly `a` and keeps every other
alert, in order; afterwards getAlerts returns no alert with that id, for any
resolved parameter and any limit, whether `a` was resolved or not. -/
theorem deleteAlert_own (alerts : List Alert) (a : Alert) (userId : Nat)
    (ha : a ∈ alerts) (hown : a.userId = userId)
    (hid : (alerts.map (fun x => x._id)).Nodup) :
    ∃ l1 l2, alerts = l1 ++ a :: l2 ∧
      deleteAlert alerts userId a._id =
        ({ status := 200, success := true, message := some "Alert deleted successfully"
           data := none }, l1 ++ l2) ∧
      ∀ (resolved : Option String) (limit : Option Int) (l : List Alert),
        (getAlerts (deleteAlert alerts userId a._id).2 userId resolved limit).data = some l →
        ∀ x ∈ l, x._id ≠ a._id := by
  obtain ⟨l1, l2, hl, h1, h2⟩ := split_at_id alerts a ha hid
  have hdel : deleteAlert alerts userId a._id =
      ({ status := 200, success := true, message := some "Alert deleted successfully"
         data := none }, l1 ++ l2) := by
    subst hl
    unfold deleteAlert
    rw [findOneAndDelete_first _ l1 l2 a (by simp [hown]) (fun x hx => by simp [h1 x hx])]
  refine ⟨l1, l2, hl, hdel, ?_⟩
  intro resolved limit l hdata x hx
  rw [hdel, getAlerts_eq] at hdata
  have hl2 := Option.some.inj hdata
  subst hl2
  have hx1 := (limitDocs_sublist _ _).subset hx
  have hx2 := (List.mem_filter.mp ((sortCreatedAtDesc_perm _).mem_iff.mp hx1)).1
  rcases List.mem_append.mp hx2 with h | h
  · exact h1 x h
  · exact h2 x h

/-- C17 at a concrete ledger: user 1 deletes the resolved alert 2; alerts 1 and
3 remain and no later read of user 1 shows id 2. -/
theorem deleteAlert_own_witness :
    deleteAlert
        [⟨1, 1, "aws", "cpu", 80, 90, "a", "low", true, false, 5, none⟩,
         ⟨2, 1, "gcp", "cost", 10, 20, "b", "high", true, true, 10, some 12⟩,
         ⟨3, 2, "aws", "cpu", 80, 90, "c", "low", true, false, 15, none⟩]
        1 2 =
      ({ status := 200, success := true, message := some "Alert deleted successfully"
         data := none },
        [⟨1, 1, "aws", "cpu", 80, 90, "a", "low", true, false, 5, none⟩,
         ⟨3, 2, "aws", "cpu", 80, 90, "c", "low", true, false, 15, none⟩]) ∧
    ∀ (resolved : Option String) (limit : Option Int) (l : List Alert),
      (getAlerts (deleteAlert
        [⟨1, 1, "aws", "cpu", 80, 90, "a", "low", true, false, 5, none⟩,
         ⟨2, 1, "gcp", "cost", 10, 20, "b", "high", true, true, 10, some 12⟩,
         ⟨3, 2, "aws", "cpu", 80, 90, "c", "low", true, false, 15, none⟩]
        1 2).2 1 resolved limit).data = some l →
      ∀ x ∈ l, x._id ≠ 2 := by
  obtain ⟨l1, l2, -, -, h⟩ := deleteAlert_own
    [⟨1, 1, "aws", "cpu", 80, 90, "a", "low", true, false, 5, none⟩,
     ⟨2, 1, "gcp", "cost", 10, 20, "b", "high", true, true, 10, some 12⟩,
     ⟨3, 2, "aws", "cpu", 80, 90, "c", "low", true, false, 15, none⟩]
    ⟨2, 1, "gcp", "cost", 10, 20, "b", "high", true, true, 10, some 12⟩ 1
    (by decide) rfl (by decide)
  exact ⟨by decide, h⟩

/-- C18: in every ledger reached from the empty ledger by a sequence of
createAlert, resolveAlert and deleteAlert calls, with arbitrary callers,
bodies, ids and times, each alert has resolvedAt set if and only if its
resolved flag is true. -/
theorem ledger_resolvedAt_iff_resolved (ops : List LedgerOp) :
    ∀ a ∈ runOps ops, (a.resolvedAt ≠ none ↔ a.resolved = true) := by
  have step : ∀ (alerts : List Alert) (op : LedgerOp),
      (∀ a ∈ alerts, (a.resolvedAt ≠ none ↔ a.resolved = true)) →
      ∀ a ∈ applyOp alerts op, (a.resolvedAt ≠ none ↔ a.resolved = true) := by
    intro alerts op hinv a ha
    cases op with
    | create userId body newId now =>
      rcases createAlert_mem alerts userId body newId now a ha with h | ⟨h1, h2⟩
      · exact hinv a h
      · simp [h1, h2]
    | resolve userId id now =>
      rcases resolveAlert_mem alerts userId id now a ha with h | ⟨y, -, rfl⟩
      · exact hinv a h
      · simp
    | delete userId id =>
      exact hinv a (deleteAlert_mem alerts userId id a ha)
  have run : ∀ (ops : List LedgerOp) (init : List Alert),
      (∀ a ∈ init, (a.resolvedAt ≠ none ↔ a.resolved = true)) →
      ∀ a ∈ ops.foldl applyOp init, (a.resolvedAt ≠ none ↔ a.resolved = true) := by
    intro ops
    induction ops with
    | nil => intro init h; exact h
    | cons op rest ih =>
      intro init h
      exact ih (applyOp init op) (step init op h)
  exact run ops [] (by simp)

/-- C18 on a concrete run: two alerts are created, the first is resolved at
time 30, the second deleted; the remaining alert is resolved with resolvedAt
set. -/
theorem ledger_resolvedAt_iff_resolved_example :
    runOps
        [.create 1 ⟨some "aws", some "cpu", some 80, some 90, some "hot", none⟩ 7 10,
         .create 1 ⟨some "gcp", some "cost", some 10, some 20, some "paid", some "low"⟩ 8 20,
         .resolve 1 7 30,
         .delete 1 8] =
      [⟨7, 1, "aws", "cpu", 80, 90, "hot", "medium", true, true, 10, some 30⟩] ∧
    ∀ a ∈ runOps
        [.create 1 ⟨some "aws", some "cpu", some 80, some 90, some "hot", none⟩ 7 10,
         .create 1 ⟨some "gcp", some "cost", some 10, some 20, some "paid", some "low"⟩ 8 20,
         .resolve 1 7 30,
         .delete 1 8], (a.resolvedAt ≠ none ↔ a.resolved = true) :=
  ⟨by decide, ledger_resolvedAt_iff_resolved _⟩

/-- C19: an alert created by createAlert at time t0 under a fresh id and then
resolved by its owner through resolveAlert at a time t1 >= t0 is returned with
status 200, resolved = true, resolvedAt = t1 and createdAt = t0, hence with a
non-null resolvedAt that is not before createdAt. -/
theorem create_then_resolve (alerts : List Alert) (userId : Nat) (body : AlertBody)
    (newId : Nat) (t0 t1 : Int)
    (hfresh : ∀ x ∈ alerts, x._id ≠ newId)
    (hcreated : (createAlert alerts userId body newId t0).1.status = 201)
    (ht : t0 ≤ t1) :
    ∃ a r, (resolveAlert (createAlert alerts userId body newId t0).2 userId newId t1).1 =
        { status := 200, success := true, message := some "Alert resolved successfully"
          data := some a } ∧
      a._id = newId ∧ a.userId = userId ∧ a.resolved = true ∧
      a.resolvedAt = some r ∧ r = t1 ∧ a.createdAt = t0 ∧ a.createdAt ≤ r := by
  rcases createAlert_cases alerts userId body newId t0 with
    ⟨-, h⟩ | ⟨p, t, th, cv, msg, -, -, -, -, -, -, -, -, -, -, ⟨-, h⟩ | ⟨-, h⟩⟩
  · rw [h] at hcreated; simp [missingFields] at hcreated
  · rw [h] at hcreated; simp at hcreated
  · rw [h]
    simp only []
    unfold resolveAlert
    rw [findOneAndUpdate_first _ _ alerts [] _ (by simp)
      (fun x hx => by simp [hfresh x hx])]
    exact ⟨_, t1, rfl, rfl, rfl, rfl, rfl, rfl, rfl, ht⟩

/-- C19 at a concrete request: created at time 10, resolved at time 30. -/
theorem create_then_resolve_witness :
    ∃ a r, (resolveAlert (createAlert [] 1
          ⟨some "aws", some "cpu", some 80, some 90, some "hot", none⟩ 7 10).2 1 7 30).1 =
        { status := 200, success := true, message := some "Alert resolved successfully"
          data := some a } ∧
      a.resolved = true ∧ a.resolvedAt = some r ∧ a.createdAt ≤ r := by
  obtain ⟨a, r, h1, -, -, h2, h3, -, -, h4⟩ := create_then_resolve [] 1
    ⟨some "aws", some "cpu", some 80, some 90, some "hot", none⟩ 7 10 30
    (by simp) (by decide) (by decide)
  exact ⟨a, r, h1, h2, h3, h4⟩

/-- C20: one seedMetrics call answers 201 with count 168 and appends to the
store, whatever it held, 168 = 4 * 6 * 7 samples owned by the caller. They come
in seven blocks, one per day offset d = 0..6, and each block holds exactly one
sample for each pair of a provider in {aws, gcp, azure, digitalocean} and a
type in {billing, cpu, memory, storage, latency, throughput}; in a zone of
constant offset the samples of block d lie on the local day d days before the
request. Consecutive calls append 168 samples each, after the samples already
stored, which stay in place: nothing is deduplicated. -/
theorem seedMetrics_appends_168 (tz : TimeZone) (store : List Metric) (userId : Nat)
    (now : Int) (random : Nat → ℚ) :
    ∃ block : Nat → List Metric,
      (seedMetrics tz store userId now random).2 = store ++ (List.range 7).flatMap block ∧
      (seedMetrics tz store userId now random).1 =
        { status := 201, success := true, message := "Sample metrics seeded successfully"
          count := 168 } ∧
      ((List.range 7).flatMap block).length = 4 * 6 * 7 ∧
      (List.product providers seedTypes).Nodup ∧
      (∀ d, (block d).map (fun m => (m.provider, m.metricType)) =
          List.product providers seedTypes ∧
        ∀ m ∈ block d, m.userId = userId) ∧
      (∀ offset, tz = TimeZone.fixed offset → ∀ (d : Nat), ∀ m ∈ block d,
        Day (LocalTime tz m.timestamp) = Day (LocalTime tz now) - d) ∧
      (∀ calls : List (Int × (Nat → ℚ)),
        (seedCalls tz userId calls store).length = store.length + 168 * calls.length ∧
        store <+: seedCalls tz userId calls store) := by
  refine ⟨fun d => seedDay tz userId random providers (setDateBack tz now (d : Nat)) (24 * d),
    ?_, ?_, ?_, by decide, ?_, ?_, ?_⟩
  · simp only [seedMetrics]
    rw [seedDays_blocks]
  · simp only [seedMetrics, seedDays_length]
  · rw [← seedDays_blocks, seedDays_length]
  · intro d
    exact ⟨(seedDay_keys tz userId random providers _ _).1,
      (seedDay_keys tz userId random providers _ _).2.2⟩
  · intro offset htz d m hm
    subst htz
    rw [seedDay_fixed_day offset userId random providers _ _ m hm, setDateBack_fixed_day]
  · intro calls
    exact seedCalls_length tz userId calls store

/-- C20 at a concrete call in UTC with constant random draws: the count is
168, the store grows from one sample to 169, and two calls leave 337. -/
theorem seedMetrics_appends_168_example :
    (seedMetrics (TimeZone.fixed 0) [⟨2, "aws", "cpu", 5, "%", "", "", 0⟩] 1 1000000000
      (fun _ => 1 / 2)).1.count = 168 ∧
    (seedMetrics (TimeZone.fixed 0) [⟨2, "aws", "cpu", 5, "%", "", "", 0⟩] 1 1000000000
      (fun _ => 1 / 2)).2.length = 169 ∧
    (seedCalls (TimeZone.fixed 0) 1 [(1000000000, fun _ => 1 / 2), (1000000500, fun _ => 1 / 3)]
      [⟨2, "aws", "cpu", 5, "%", "", "", 0⟩]).length = 337 := by
  obtain ⟨block, h1, h2, h3, -, -, -, h4⟩ := seedMetrics_appends_168 (TimeZone.fixed 0)
    [⟨2, "aws", "cpu", 5, "%", "", "", 0⟩] 1 1000000000 (fun _ => 1 / 2)
  refine ⟨by rw [h2], ?_, ?_⟩
  · rw [h1, List.length_append, h3]
    rfl
  · rw [(h4 _).1]
    rfl

/-- C21: clearMetrics answers 200 with deletedCount equal to the number of the
caller's samples in the store before the call; the store afterwards is the old
store without the caller's samples, so it holds no sample of the caller and
every sample of any other owner, as often and in the same order as before.
Afterwards the dashboard of the caller has no entries and a summary of zeros,
and getBilling, getResources, getPerformance and getAllMetrics return no
samples, for all parameters. -/
theorem clearMetrics_all_and_only (tz : TimeZone) (store : List Metric) (alerts : List Alert)
    (userId : Nat) :
    (clearMetrics store userId).1 =
      { status := 200, success := true, message := "Metrics cleared successfully"
        deletedCount := store.countP (fun m => decide (m.userId = userId)) } ∧
    (clearMetrics store userId).2 = store.filter (fun m => decide (m.userId ≠ userId)) ∧
    (∀ m ∈ (clearMetrics store userId).2, m.userId ≠ userId) ∧
    (∀ m, m.userId ≠ userId → (clearMetrics store userId).2.count m = store.count m) ∧
    (clearMetrics store userId).2.length + (clearMetrics store userId).1.deletedCount =
      store.length ∧
    (∀ provider now, ∃ d,
      (getDashboard (clearMetrics store userId).2 alerts userId provider now).data = some d ∧
      d.metrics = [] ∧
      d.summary = ⟨some "0.00", some "0.00", some "0.00", some "0.00"⟩) ∧
    (∀ provider days now,
      (getBilling tz (clearMetrics store userId).2 userId provider days now).data = some [] ∧
      (getResources tz (clearMetrics store userId).2 userId provider days now).data = some [] ∧
      (getPerformance tz (clearMetrics store userId).2 userId provider days now).data
        = some []) ∧
    (∀ provider days type now,
      (getAllMetrics tz (clearMetrics store userId).2 userId provider days type now).data
        = some []) := by
  have hstore : (clearMetrics store userId).2 =
      store.filter (fun m => decide (m.userId ≠ userId)) := by
    unfold clearMetrics deleteMany
    simp only []
    apply List.filter_congr
    intro m _
    by_cases h : m.userId = userId <;> simp [h]
  refine ⟨?_, hstore, ?_, ?_, ?_, ?_, ?_, ?_⟩
  · unfold clearMetrics deleteMany
    simp only [List.countP_eq_length_filter]
  · intro m hm
    rw [hstore] at hm
    simpa using (List.mem_filter.mp hm).2
  · intro m hm
    rw [hstore, List.count_filter]
    simpa using hm
  · unfold clearMetrics deleteMany
    simp only []
    have := List.length_eq_length_filter_add (l := store) (fun m => decide (m.userId = userId))
    omega
  · intro provider now
    have hl : latestMetrics (clearMetrics store userId).2 userId provider now = [] := by
      unfold latestMetrics
      simp only []
      rw [filter_cleared store userId _ (by
        intro m hm
        simp [matchStage, dashboardQuery] at hm
        exact hm.1.1)]
      rfl
    refine ⟨_, rfl, hl, ?_⟩
    show summarize _ = _
    rw [hl]
    decide
  · intro provider days now
    refine ⟨?_, ?_, ?_⟩
    · unfold getBilling
      simp only []
      rw [filter_cleared store userId _ (by intro m hm; simp at hm; exact hm.1.1.1)]
      rfl
    · unfold getResources
      simp only []
      rw [filter_cleared store userId _ (by intro m hm; simp at hm; exact hm.1.1.1)]
      rfl
    · unfold getPerformance
      simp only []
      rw [filter_cleared store userId _ (by intro m hm; simp at hm; exact hm.1.1.1)]
      rfl
  · intro provider days type now
    unfold getAllMetrics
    simp only []
    rw [filter_cleared store userId _ (by intro m hm; simp at hm; exact hm.1.1.1)]
    rfl

/-- C21 at a concrete store: user 1 has two samples, user 2 one; clearing for
user 1 reports 2 and leaves the sample of user 2. -/
theorem clearMetrics_all_and_only_example :
    clearMetrics
        [⟨1, "aws", "cpu", 50, "%", "", "", 10⟩,
         ⟨2, "aws", "cpu", 60, "%", "", "", 20⟩,
         ⟨1, "gcp", "billing", 70, "USD", "", "", 30⟩] 1 =
      ({ status := 200, success := true, message := "Metrics cleared successfully"
         deletedCount := 2 }, [⟨2, "aws", "cpu", 60, "%", "", "", 20⟩]) ∧
    (clearMetrics
        [⟨1, "aws", "cpu", 50, "%", "", "", 10⟩,
         ⟨2, "aws", "cpu", 60, "%", "", "", 20⟩,
         ⟨1, "gcp", "billing", 70, "USD", "", "", 30⟩] 1).2 =
      List.filter (fun m => decide (m.userId ≠ 1))
        [⟨1, "aws", "cpu", 50, "%", "", "", 10⟩,
         ⟨2, "aws", "cpu", 60, "%", "", "", 20⟩,
         ⟨1, "gcp", "billing", 70, "USD", "", "", 30⟩] :=
  ⟨by decide, (clearMetrics_all_and_only (TimeZone.fixed 0) _ [] 1).2.1⟩

/-- C22: samples are immutable. For every request to a metrics or alert
handler the Metric collection afterwards is `kept ++ added`, where `kept` is
the old collection itself, documents unchanged and in place, unless the request
is clearMetrics by user u, in which case `kept` is the old collection without
the samples owned by u and nothing is added. Hence no sample has fewer copies
after a request than before, except through clearMetrics invoked by its own
owner. -/
theorem samples_immutable (tz : TimeZone) (s : System) (req : Request) :
    ∃ kept added, (handle tz s req).metrics = kept ++ added ∧
      kept.Sublist s.metrics ∧
      (kept = s.metrics ∨
        ∃ u, req = .clearMetrics u ∧
          kept = s.metrics.filter (fun m => decide (m.userId ≠ u)) ∧ added = []) ∧
      ∀ m, s.metrics.count m ≤ (handle tz s req).metrics.count m ∨
        req = .clearMetrics m.userId := by
  have same : (handle tz s req).metrics = s.metrics →
      ∃ kept added, (handle tz s req).metrics = kept ++ added ∧
        kept.Sublist s.metrics ∧
        (kept = s.metrics ∨
          ∃ u, req = .clearMetrics u ∧
            kept = s.metrics.filter (fun m => decide (m.userId ≠ u)) ∧ added = []) ∧
        ∀ m, s.metrics.count m ≤ (handle tz s req).metrics.count m ∨
          req = .clearMetrics m.userId := by
    intro h
    refine ⟨s.metrics, [], by simp [h], List.Sublist.refl _, Or.inl rfl, ?_⟩
    intro m
    rw [h]
    exact Or.inl (le_refl _)
  cases req with
  | getDashboard _ _ _ => exact same rfl
  | getBilling _ _ _ _ => exact same rfl
  | getResources _ _ _ _ => exact same rfl
  | getPerformance _ _ _ _ => exact same rfl
  | getAllMetrics _ _ _ _ _ => exact same rfl
  | getAlerts _ _ _ => exact same rfl
  | createAlert _ _ _ _ => exact same rfl
  | resolveAlert _ _ _ => exact same rfl
  | deleteAlert _ _ => exact same rfl
  | seedMetrics userId now random =>
    refine ⟨s.metrics, seedDays tz userId random now 7 0 0, rfl, List.Sublist.refl _,
      Or.inl rfl, ?_⟩
    intro m
    left
    show s.metrics.count m ≤ (s.metrics ++ seedDays tz userId random now 7 0 0).count m
    rw [List.count_append]
    omega
  | clearMetrics u =>
    have hstore : (clearMetrics s.metrics u).2 =
        s.metrics.filter (fun m => decide (m.userId ≠ u)) := by
      unfold clearMetrics deleteMany
      simp only []
      apply List.filter_congr
      intro m _
      by_cases h : m.userId = u <;> simp [h]
    refine ⟨s.metrics.filter (fun m => decide (m.userId ≠ u)), [], ?_,
      List.filter_sublist _, Or.inr ⟨u, rfl, rfl, rfl⟩, ?_⟩
    · show (clearMetrics s.metrics u).2 = _
      rw [hstore, List.append_nil]
    · intro m
      by_cases hm : m.userId = u
      · right; rw [hm]
      · left
        show s.metrics.count m ≤ (clearMetrics s.metrics u).2.count m
        rw [hstore, List.count_filter (by simpa using hm)]

/-- C22 on concrete requests: a seed by user 1 and a clear by user 2 both keep
the sample of user 1; the clear by user 1 removes it. -/
theorem samples_immutable_example :
    (⟨1, "aws", "cpu", 50, "%", "", "", 10⟩ : Metric) ∈
      (handle (TimeZone.fixed 0) ⟨[⟨1, "aws", "cpu", 50, "%", "", "", 10⟩], [],
        fun _ => defaultAlertSettings⟩ (.clearMetrics 2)).metrics ∧
    (handle (TimeZone.fixed 0) ⟨[⟨1, "aws", "cpu", 50, "%", "", "", 10⟩], [],
        fun _ => defaultAlertSettings⟩ (.clearMetrics 1)).metrics = [] ∧
    ∃ kept added, (handle (TimeZone.fixed 0) ⟨[⟨1, "aws", "cpu", 50, "%", "", "", 10⟩], [],
        fun _ => defaultAlertSettings⟩ (.seedMetrics 1 1000000000 (fun _ => 0))).metrics =
        kept ++ added ∧ kept = [⟨1, "aws", "cpu", 50, "%", "", "", 10⟩] := by
  obtain ⟨kept, added, h1, -, h2, -⟩ := samples_immutable (TimeZone.fixed 0)
    ⟨[⟨1, "aws", "cpu", 50, "%", "", "", 10⟩], [], fun _ => defaultAlertSettings⟩
    (.seedMetrics 1 1000000000 (fun _ => 0))
  refine ⟨by decide, by decide, kept, added, h1, ?_⟩
  rcases h2 with h | ⟨u, hu, -⟩
  · exact h
  · exact absurd hu (by simp)

/-- C23: no metrics request touches the alert ledger or the alert settings:
after getDashboard, getBilling, getResources, getPerformance, getAllMetrics,
seedMetrics or clearMetrics the ledger is the same list of alerts, whatever
the samples and thresholds are. For every request, an alert of the ledger
afterwards that was not in the ledger before is either the alert inserted by a
createAlert request, unresolved, or the copy of an earlier alert with resolved
and resolvedAt set by a resolveAlert request. -/
theorem alerts_frame (tz : TimeZone) (s : System) (req : Request) :
    ((∃ u p t, req = .getDashboard u p t) ∨ (∃ u p d t, req = .getBilling u p d t) ∨
      (∃ u p d t, req = .getResources u p d t) ∨ (∃ u p d t, req = .getPerformance u p d t) ∨
      (∃ u p d ty t, req = .getAllMetrics u p d ty t) ∨ (∃ u t r, req = .seedMetrics u t r) ∨
      (∃ u, req = .clearMetrics u) →
        (handle tz s req).alerts = s.alerts ∧ (handle tz s req).settings = s.settings) ∧
    (∀ a2 ∈ (handle tz s req).alerts, a2 ∉ s.alerts →
      (∃ u body newId t, req = .createAlert u body newId t ∧
        a2.resolved = false ∧ a2.resolvedAt = none) ∨
      (∃ u id t, req = .resolveAlert u id t ∧
        ∃ a ∈ s.alerts, a2 = { a with resolved := true, resolvedAt := some t })) := by
  refine ⟨?_, ?_⟩
  · rintro (⟨u, p, t, rfl⟩ | ⟨u, p, d, t, rfl⟩ | ⟨u, p, d, t, rfl⟩ | ⟨u, p, d, t, rfl⟩ |
      ⟨u, p, d, ty, t, rfl⟩ | ⟨u, t, r, rfl⟩ | ⟨u, rfl⟩) <;> exact ⟨rfl, rfl⟩
  · intro a2 ha2 hnew
    cases req with
    | getDashboard _ _ _ => exact absurd ha2 hnew
    | getBilling _ _ _ _ => exact absurd ha2 hnew
    | getResources _ _ _ _ => exact absurd ha2 hnew
    | getPerformance _ _ _ _ => exact absurd ha2 hnew
    | getAllMetrics _ _ _ _ _ => exact absurd ha2 hnew
    | seedMetrics _ _ _ => exact absurd ha2 hnew
    | clearMetrics _ => exact absurd ha2 hnew
    | getAlerts _ _ _ => exact absurd ha2 hnew
    | createAlert u body newId t =>
      rcases createAlert_mem s.alerts u body newId t a2 ha2 with h | h
      · exact absurd h hnew
      · exact Or.inl ⟨u, body, newId, t, rfl, h⟩
    | resolveAlert u id t =>
      rcases resolveAlert_mem s.alerts u id t a2 ha2 with h | h
      · exact absurd h hnew
      · exact Or.inr ⟨u, id, t, rfl, h⟩
    | deleteAlert u id =>
      exact absurd (deleteAlert_mem s.alerts u id a2 ha2) hnew

/-- C23 on a concrete state: a sample over every threshold is seeded around
and cleared, and the unresolved alert of user 1 stays as it is. -/
theorem alerts_frame_example :
    (handle (TimeZone.fixed 0)
      ⟨[⟨1, "aws", "cpu", 99, "%", "", "", 10⟩],
       [⟨7, 1, "aws", "cpu", 80, 99, "hot", "high", true, false, 5, none⟩],
       fun _ => defaultAlertSettings⟩ (.clearMetrics 1)).alerts =
      [⟨7, 1, "aws", "cpu", 80, 99, "hot", "high", true, false, 5, none⟩] ∧
    (handle (TimeZone.fixed 0)
      ⟨[⟨1, "aws", "cpu", 99, "%", "", "", 10⟩],
       [⟨7, 1, "aws", "cpu", 80, 99, "hot", "high", true, false, 5, none⟩],
       fun _ => defaultAlertSettings⟩ (.seedMetrics 1 1000000000 (fun _ => 0))).alerts =
      [⟨7, 1, "aws", "cpu", 80, 99, "hot", "high", true, false, 5, none⟩] :=
  ⟨((alerts_frame (TimeZone.fixed 0) _ (.clearMetrics 1)).1
      (Or.inr (Or.inr (Or.inr (Or.inr (Or.inr (Or.inr ⟨1, rfl⟩))))))).1,
    ((alerts_frame (TimeZone.fixed 0) _ (.seedMetrics 1 1000000000 (fun _ => 0))).1
      (Or.inr (Or.inr (Or.inr (Or.inr (Or.inr (Or.inl ⟨1, 1000000000, _, rfl⟩))))))).1⟩

/-- C25: when a store operation of a request fails with an error `e`, each
handler answers status 500 with success = false and its own fixed message,
the same for every error: no part of `e` reaches the caller. For createAlert
this is the answer whenever the required-field check has passed, since only
then a store operation is attempted; with a missing field it answers 400
without touching the store. -/
theorem store_failure_answers_500 {ε : Type} (tz : TimeZone) (s : System) (e : ε) :
    (∀ u p t, respond tz s (some e) (.getDashboard u p t) =
      .error ⟨500, false, "Error fetching dashboard metrics"⟩) ∧
    (∀ u p d t, respond tz s (some e) (.getBilling u p d t) =
      .error ⟨500, false, "Error fetching billing metrics"⟩) ∧
    (∀ u p d t, respond tz s (some e) (.getResources u p d t) =
      .error ⟨500, false, "Error fetching resource metrics"⟩) ∧
    (∀ u p d t, respond tz s (some e) (.getPerformance u p d t) =
      .error ⟨500, false, "Error fetching performance metrics"⟩) ∧
    (∀ u p d ty t, respond tz s (some e) (.getAllMetrics u p d ty t) =
      .error ⟨500, false, "Error fetching metrics"⟩) ∧
    (∀ u t r, respond tz s (some e) (.seedMetrics u t r) =
      .error ⟨500, false, "Error seeding metrics"⟩) ∧
    (∀ u, respond tz s (some e) (.clearMetrics u) =
      .error ⟨500, false, "Error clearing metrics"⟩) ∧
    (∀ u r l, respond tz s (some e) (.getAlerts u r l) =
      .error ⟨500, false, "Error fetching alerts"⟩) ∧
    (∀ u body newId t p ty th cv msg, body.provider = some p → body.alertType = some ty →
      body.threshold = some th → body.currentValue = some cv → body.message = some msg →
      p ≠ "" → ty ≠ "" → th ≠ 0 → cv ≠ 0 → msg ≠ "" →
      respond tz s (some e) (.createAlert u body newId t) =
        .error ⟨500, false, "Error creating alert"⟩) ∧
    (∀ u id t, respond tz s (some e) (.resolveAlert u id t) =
      .error ⟨500, false, "Error resolving alert"⟩) ∧
    (∀ u id, respond tz s (some e) (.deleteAlert u id) =
      .error ⟨500, false, "Error deleting alert"⟩) ∧
    (∀ (e2 : ε) (req : Request), respond tz s (some e) req = respond tz s (some e2) req) ∧
    (∀ req : Request,
      (∃ message, respond tz s (some e) req = .error ⟨500, false, message⟩) ∨
      respond tz s (some e) req = .ok (400, false)) := by
  refine ⟨fun _ _ _ => rfl, fun _ _ _ _ => rfl, fun _ _ _ _ => rfl, fun _ _ _ _ => rfl,
    fun _ _ _ _ _ => rfl, fun _ _ _ => rfl, fun _ => rfl, fun _ _ _ => rfl, ?_,
    fun _ _ _ => rfl, fun _ _ => rfl, ?_, ?_⟩
  · intro u body newId t p ty th cv msg hp ht hth hcv hmsg p0 t0 th0 cv0 msg0
    have hchk : (!truthy body.provider || !truthy body.alertType ||
        !truthyNum body.threshold || !truthyNum body.currentValue ||
        !truthy body.message) = false := by
      rw [hp, ht, hth, hcv, hmsg]
      simp [truthy, truthyNum, p0, t0, th0, cv0, msg0]
    simp only [respond, hchk, Bool.false_eq_true, if_false]
    rfl
  · intro e2 req
    cases req <;> simp only [respond, tryCatch]
  · intro req
    cases req with
    | createAlert u body newId t =>
      by_cases hchk : (!truthy body.provider || !truthy body.alertType ||
          !truthyNum body.threshold || !truthyNum body.currentValue ||
          !truthy body.message) = true
      · right
        simp only [respond, hchk, if_true]
        rfl
      · left
        exact ⟨"Error creating alert", by simp only [respond, hchk, if_false]; rfl⟩
    | getDashboard _ _ _ => exact Or.inl ⟨_, rfl⟩
    | getBilling _ _ _ _ => exact Or.inl ⟨_, rfl⟩
    | getResources _ _ _ _ => exact Or.inl ⟨_, rfl⟩
    | getPerformance _ _ _ _ => exact Or.inl ⟨_, rfl⟩
    | getAllMetrics _ _ _ _ _ => exact Or.inl ⟨_, rfl⟩
    | seedMetrics _ _ _ => exact Or.inl ⟨_, rfl⟩
    | clearMetrics _ => exact Or.inl ⟨_, rfl⟩
    | getAlerts _ _ _ => exact Or.inl ⟨_, rfl⟩
    | resolveAlert _ _ _ => exact Or.inl ⟨_, rfl⟩
    | deleteAlert _ _ => exact Or.inl ⟨_, rfl⟩

/-- C25 at concrete requests: two different store errors give the same 500
answer of getAlerts; without a failure the handler answers 200. -/
theorem store_failure_answers_500_example :
    respond (TimeZone.fixed 0) ⟨[], [], fun _ => defaultAlertSettings⟩
        (some "connection lost") (.getAlerts 1 none none) =
      .error ⟨500, false, "Error fetching alerts"⟩ ∧
    respond (TimeZone.fixed 0) ⟨[], [], fun _ => defaultAlertSettings⟩
        (some "connection lost") (.getAlerts 1 none none) =
      respond (TimeZone.fixed 0) ⟨[], [], fun _ => defaultAlertSettings⟩
        (some "disk full") (.getAlerts 1 none none) ∧
    respond (TimeZone.fixed 0) ⟨[], [], fun _ => defaultAlertSettings⟩
        (none : Option String) (.getAlerts 1 none none) = .ok (200, true) :=
  ⟨(store_failure_answers_500 (TimeZone.fixed 0) _ "connection lost").2.2.2.2.2.2.2.1 1 none none,
    (store_failure_answers_500 (TimeZone.fixed 0) _ "connection lost").2.2.2.2.2.2.2.2.2.2.2.1
      "disk full" _,
    rfl⟩

/-- C29: resolveAlert called twice by the owner on the same alert, at times t1
and t2, in a ledger without repeated ids: the second call succeeds again with
status 200, the returned alert keeps resolved = true and carries resolvedAt =
t2, and no alert with that id in the ledger carries the first time any more
when t1 and t2 differ. -/
theorem resolveAlert_twice (alerts : List Alert) (a : Alert) (userId : Nat) (t1 t2 : Int)
    (ha : a ∈ alerts) (hown : a.userId = userId)
    (hid : (alerts.map (fun x => x._id)).Nodup) :
    ∃ a1 a2 ledger1 ledger2,
      resolveAlert alerts userId a._id t1 =
        ({ status := 200, success := true, message := some "Alert resolved successfully"
           data := some a1 }, ledger1) ∧
      resolveAlert ledger1 userId a._id t2 =
        ({ status := 200, success := true, message := some "Alert resolved successfully"
           data := some a2 }, ledger2) ∧
      a1.resolved = true ∧ a1.resolvedAt = some t1 ∧
      a2.resolved = true ∧ a2.resolvedAt = some t2 ∧
      (∀ x ∈ ledger2, x._id = a._id → x.resolved = true ∧ x.resolvedAt = some t2) ∧
      (t1 ≠ t2 → ∀ x ∈ ledger2, x._id = a._id → x.resolvedAt ≠ some t1) := by
  obtain ⟨l1, l2, hl, h1, h2⟩ := split_at_id alerts a ha hid
  subst hl
  have hfirst : resolveAlert (l1 ++ a :: l2) userId a._id t1 =
      ({ status := 200, success := true, message := some "Alert resolved successfully"
         data := some { a with resolved := true, resolvedAt := some t1 } },
        l1 ++ { a with resolved := true, resolvedAt := some t1 } :: l2) := by
    unfold resolveAlert
    rw [findOneAndUpdate_first _ _ l1 l2 a (by simp [hown]) (fun x hx => by simp [h1 x hx])]
  have hsecond : resolveAlert (l1 ++ { a with resolved := true, resolvedAt := some t1 } :: l2)
      userId a._id t2 =
      ({ status := 200, success := true, message := some "Alert resolved successfully"
         data := some { a with resolved := true, resolvedAt := some t2 } },
        l1 ++ { a with resolved := true, resolvedAt := some t2 } :: l2) := by
    unfold resolveAlert
    rw [findOneAndUpdate_first _ _ l1 l2 { a with resolved := true, resolvedAt := some t1 }
      (by simp [hown]) (fun x hx => by simp [h1 x hx])]
  have hall : ∀ x ∈ l1 ++ { a with resolved := true, resolvedAt := some t2 } :: l2,
      x._id = a._id → x.resolved = true ∧ x.resolvedAt = some t2 := by
    intro x hx hxid
    rcases List.mem_append.mp hx with hx | hx
    · exact absurd hxid (h1 x hx)
    · rcases List.mem_cons.mp hx with rfl | hx
      · exact ⟨rfl, rfl⟩
      · exact absurd hxid (h2 x hx)
  refine ⟨_, _, _, _, hfirst, hsecond, rfl, rfl, rfl, rfl, hall, ?_⟩
  intro hne x hx hxid hx1
  have := (hall x hx hxid).2
  rw [this] at hx1
  exact hne (Option.some.inj hx1).symm

/-- C29 at a concrete ledger: alert 2 of user 1, resolved at time 12, is
resolved again at time 50; the answer is 200 and resolvedAt becomes 50. -/
theorem resolveAlert_twice_witness :
    resolveAlert [⟨2, 1, "gcp", "cost", 10, 20, "b", "high", true, true, 10, some 12⟩] 1 2 50 =
      ({ status := 200, success := true, message := some "Alert resolved successfully"
         data := some ⟨2, 1, "gcp", "cost", 10, 20, "b", "high", true, true, 10, some 50⟩ },
        [⟨2, 1, "gcp", "cost", 10, 20, "b", "high", true, true, 10, some 50⟩]) ∧
    ∃ a1 a2 ledger1 ledger2,
      resolveAlert [⟨2, 1, "gcp", "cost", 10, 20, "b", "high", true, false, 10, none⟩] 1 2 12 =
        ({ status := 200, success := true, message := some "Alert resolved successfully"
           data := some a1 }, ledger1) ∧
      resolveAlert ledger1 1 2 50 =
        ({ status := 200, success := true, message := some "Alert resolved successfully"
           data := some a2 }, ledger2) ∧
      a1.resolvedAt = some 12 ∧ a2.resolved = true ∧ a2.resolvedAt = some 50 := by
  obtain ⟨a1, a2, ledger1, ledger2, h1, h2, -, h3, h4, h5, -⟩ := resolveAlert_twice
    [⟨2, 1, "gcp", "cost", 10, 20, "b", "high", true, false, 10, none⟩]
    ⟨2, 1, "gcp", "cost", 10, 20, "b", "high", true, false, 10, none⟩ 1 12 50
    (by decide) rfl (by decide)
  exact ⟨by decide, a1, a2, ledger1, ledger2, h1, h2, h3, h4, h5⟩

/-- C30: the alerts list of the getDashboard response is the first five
entries of the caller's unresolved alerts ordered by createdAt descending: it
holds at most 5 alerts, each an alert of the ledger owned by the caller with
resolved = false, newest first, and every unresolved alert of the caller left
out is not newer than any alert in the list. It does not depend on the provider
parameter, the request time or the samples. -/
theorem getDashboard_recent_alerts (metrics : List Metric) (alerts : List Alert)
    (userId : Nat) (provider : Option String) (now : Int) :
    ∃ d full rest, (getDashboard metrics alerts userId provider now).data = some d ∧
      full.Perm (alerts.filter (fun a => decide (a.userId = userId ∧ a.resolved = false))) ∧
      full.Pairwise (fun a b => b.createdAt ≤ a.createdAt) ∧
      full = d.alerts ++ rest ∧ d.alerts = full.take 5 ∧ d.alerts.length ≤ 5 ∧
      d.alerts.length = min 5 full.length ∧
      (∀ a ∈ d.alerts, a ∈ alerts ∧ a.userId = userId ∧ a.resolved = false) ∧
      d.alerts.Pairwise (fun a b => b.createdAt ≤ a.createdAt) ∧
      (∀ a ∈ d.alerts, ∀ b ∈ rest, b.createdAt ≤ a.createdAt) ∧
      (∀ (metrics2 : List Metric) (provider2 : Option String) (now2 : Int),
        ∃ d2, (getDashboard metrics2 alerts userId provider2 now2).data = some d2 ∧
          d2.alerts = d.alerts) := by
  have hfil : alerts.filter (fun a => decide (a.userId = userId) && a.resolved == false) =
      alerts.filter (fun a => decide (a.userId = userId ∧ a.resolved = false)) := by
    apply List.filter_congr
    intro a _
    cases hres : a.resolved <;> by_cases hu : a.userId = userId <;> simp [hu]
  have hrec : recentAlerts alerts userId = (sortCreatedAtDesc (alerts.filter (fun a =>
      decide (a.userId = userId ∧ a.resolved = false)))).take 5 := by
    unfold recentAlerts
    rw [hfil]
    simp [limitDocs]
  have hsorted := sortCreatedAtDesc_pairwise (alerts.filter (fun a =>
      decide (a.userId = userId ∧ a.resolved = false)))
  refine ⟨_, sortCreatedAtDesc (alerts.filter (fun a =>
      decide (a.userId = userId ∧ a.resolved = false))),
    (sortCreatedAtDesc (alerts.filter (fun a =>
      decide (a.userId = userId ∧ a.resolved = false)))).drop 5,
    rfl, sortCreatedAtDesc_perm _, hsorted, ?_, hrec, ?_, ?_, ?_, ?_, ?_, ?_⟩
  · show _ = recentAlerts alerts userId ++ _
    rw [hrec, List.take_append_drop]
  · show (recentAlerts alerts userId).length ≤ 5
    rw [hrec, List.length_take]
    omega
  · show (recentAlerts alerts userId).length = _
    rw [hrec, List.length_take]
  · intro a ha
    have ha2 : a ∈ recentAlerts alerts userId := ha
    rw [hrec] at ha2
    have h2 := List.mem_filter.mp ((sortCreatedAtDesc_perm _).mem_iff.mp
      (List.mem_of_mem_take ha2))
    have h3 := h2.2
    simp only [decide_eq_true_eq] at h3
    exact ⟨h2.1, h3.1, h3.2⟩
  · show (recentAlerts alerts userId).Pairwise _
    rw [hrec]
    exact hsorted.sublist (List.take_sublist _ _)
  · have hp := hsorted
    rw [← List.take_append_drop 5 (sortCreatedAtDesc (alerts.filter (fun a =>
      decide (a.userId = userId ∧ a.resolved = false))))] at hp
    intro a ha b hb
    have ha2 : a ∈ recentAlerts alerts userId := ha
    rw [hrec] at ha2
    exact (List.pairwise_append.mp hp).2.2 a ha2 b hb
  · intro metrics2 provider2 now2
    exact ⟨_, rfl, rfl⟩

/-- C30 at a concrete ledger: user 1 has six unresolved alerts of several
providers and one resolved alert; the dashboard filtered to gcp lists the five
newest unresolved ones, aws alerts included. -/
theorem getDashboard_recent_alerts_example :
    ∃ d, (getDashboard []
        [⟨1, 1, "aws", "cpu", 80, 90, "a", "low", true, false, 10, none⟩,
         ⟨2, 1, "aws", "cpu", 80, 90, "b", "low", true, false, 20, none⟩,
         ⟨3, 1, "gcp", "cpu", 80, 90, "c", "low", true, false, 30, none⟩,
         ⟨4, 1, "aws", "cost", 80, 90, "d", "low", true, true, 40, some 41⟩,
         ⟨5, 1, "azure", "cpu", 80, 90, "e", "low", true, false, 50, none⟩,
         ⟨6, 1, "aws", "cpu", 80, 90, "f", "low", true, false, 60, none⟩,
         ⟨7, 2, "aws", "cpu", 80, 90, "g", "low", true, false, 70, none⟩,
         ⟨8, 1, "aws", "cpu", 80, 90, "h", "low", true, false, 80, none⟩]
        1 (some "gcp") 100000000).data = some d ∧
      d.alerts.length ≤ 5 ∧
      d.alerts.map (fun a => a._id) = [8, 6, 5, 3, 2] := by
  obtain ⟨d, full, rest, hd, -, -, -, -, hlen, -⟩ := getDashboard_recent_alerts []
    [⟨1, 1, "aws", "cpu", 80, 90, "a", "low", true, false, 10, none⟩,
     ⟨2, 1, "aws", "cpu", 80, 90, "b", "low", true, false, 20, none⟩,
     ⟨3, 1, "gcp", "cpu", 80, 90, "c", "low", true, false, 30, none⟩,
     ⟨4, 1, "aws", "cost", 80, 90, "d", "low", true, true, 40, some 41⟩,
     ⟨5, 1, "azure", "cpu", 80, 90, "e", "low", true, false, 50, none⟩,
     ⟨6, 1, "aws", "cpu", 80, 90, "f", "low", true, false, 60, none⟩,
     ⟨7, 2, "aws", "cpu", 80, 90, "g", "low", true, false, 70, none⟩,
     ⟨8, 1, "aws", "cpu", 80, 90, "h", "low", true, false, 80, none⟩]
    1 (some "gcp") 100000000
  refine ⟨d, hd, hlen, ?_⟩
  have : d = (⟨summarize _, latestMetrics [] 1 (some "gcp") 100000000, recentAlerts _ 1⟩ :
      Dashboard) := (Option.some.inj hd).symm
  rw [this]
  decide

/-- C28: in a time zone of constant offset, for an owner whose store was
empty, after one seedMetrics call a getDashboard read on the same local
calendar day returns exactly 24 entries without a provider filter (parameter
absent or 'all'), one for each pair of the 4 providers and 6 types, and exactly
6 entries, one per type, when filtered to one of the 4 providers; each entry
carries the value and timestamp of the day-0 seeded sample of its pair. When
the request is made before local noon the entries of the noon-stamped samples
carry timestamps later than the request time. -/
theorem seeded_dashboard_same_day (offset : Int) (store : List Metric) (alerts : List Alert)
    (userId : Nat) (now0 now1 : Int) (random : Nat → ℚ)
    (hempty : ∀ m ∈ store, m.userId ≠ userId)
    (hday : Day (LocalTime (TimeZone.fixed offset) now1) =
      Day (LocalTime (TimeZone.fixed offset) now0)) :
    (∀ q, q = none ∨ q = some "all" →
      ∃ d, (getDashboard (seedMetrics (TimeZone.fixed offset) store userId now0 random).2
          alerts userId q now1).data = some d ∧
        d.metrics.length = 24 ∧
        (d.metrics.map (fun g => g._id)).Perm
          ((List.product providers seedTypes).map (fun pt => (⟨pt.1, pt.2⟩ : GroupId))) ∧
        ∀ g ∈ d.metrics, ∃ m ∈ seededToday (TimeZone.fixed offset) userId random now0,
          g._id = ⟨m.provider, m.metricType⟩ ∧ g.value = m.value ∧
          g.timestamp = m.timestamp) ∧
    (∀ p ∈ providers,
      ∃ d, (getDashboard (seedMetrics (TimeZone.fixed offset) store userId now0 random).2
          alerts userId (some p) now1).data = some d ∧
        d.metrics.length = 6 ∧
        (d.metrics.map (fun g => g._id)).Perm
          (seedTypes.map (fun t => (⟨p, t⟩ : GroupId))) ∧
        ∀ g ∈ d.metrics, ∃ m ∈ seededToday (TimeZone.fixed offset) userId random now0,
          g._id = ⟨m.provider, m.metricType⟩ ∧ g.value = m.value ∧
          g.timestamp = m.timestamp) ∧
    (TimeWithinDay (LocalTime (TimeZone.fixed offset) now1) < 12 * msPerHour →
      ∀ q d, (getDashboard (seedMetrics (TimeZone.fixed offset) store userId now0 random).2
          alerts userId q now1).data = some d →
        ∀ g ∈ d.metrics, g._id.metricType ≠ "billing" → now1 < g.timestamp) := by
  have hkeys : (seededToday (TimeZone.fixed offset) userId random now0).map
      (fun x => (x.provider, x.metricType)) = List.product providers seedTypes := by
    unfold seededToday
    exact (seedDay_keys _ userId random providers _ _).1
  have hcarry : ∀ q, ∀ g ∈ latestMetrics
      (seedMetrics (TimeZone.fixed offset) store userId now0 random).2 userId q now1,
      ∃ m ∈ seededToday (TimeZone.fixed offset) userId random now0,
        g._id = ⟨m.provider, m.metricType⟩ ∧ g.value = m.value ∧
        g.timestamp = m.timestamp := by
    intro q g hg
    obtain ⟨m, hm, hgm, -⟩ :=
      (seeded_latest offset store userId now0 now1 random q hempty hday).1 g hg
    exact ⟨m, hm, by rw [hgm]; rfl, by rw [hgm]; rfl, by rw [hgm]; rfl⟩
  refine ⟨?_, ?_, ?_⟩
  · intro q hq
    obtain ⟨h1, h2⟩ := seeded_latest offset store userId now0 now1 random q hempty hday
    have hq2 : ∀ m : Metric, q = none ∨ q = some "" ∨ q = some "all" ∨ q = some m.provider := by
      intro m
      rcases hq with h | h
      · exact Or.inl h
      · exact Or.inr (Or.inr (Or.inl h))
    have hperm : ((latestMetrics
        (seedMetrics (TimeZone.fixed offset) store userId now0 random).2 userId q now1).map
          (fun g => g._id)).Perm
        ((List.product providers seedTypes).map (fun pt => (⟨pt.1, pt.2⟩ : GroupId))) := by
      have hndL : ((latestMetrics
          (seedMetrics (TimeZone.fixed offset) store userId now0 random).2 userId q now1).map
            (fun g => g._id)).Nodup := (groupFirst_keys [] _).1
      have hndR : ((List.product providers seedTypes).map
          (fun pt => (⟨pt.1, pt.2⟩ : GroupId))).Nodup := by decide
      refine (List.perm_ext_iff_of_nodup hndL hndR).mpr ?_
      intro k
      constructor
      · intro hk
        obtain ⟨g, hg, rfl⟩ := List.mem_map.mp hk
        obtain ⟨m, hm, hgm, -⟩ := h1 g hg
        refine List.mem_map.mpr ⟨(m.provider, m.metricType), ?_, by rw [hgm]; rfl⟩
        rw [← hkeys]
        exact List.mem_map.mpr ⟨m, hm, rfl⟩
      · intro hk
        obtain ⟨pt, hpt, rfl⟩ := List.mem_map.mp hk
        rw [← hkeys] at hpt
        obtain ⟨m, hm, rfl⟩ := List.mem_map.mp hpt
        obtain ⟨g, hg, hgid⟩ := h2 m hm (hq2 m)
        exact List.mem_map.mpr ⟨g, hg, hgid⟩
    refine ⟨_, rfl, ?_, hperm, hcarry q⟩
    have := hperm.length_eq
    rw [List.length_map] at this
    rw [this]
    decide
  · intro p hp
    obtain ⟨h1, h2⟩ := seeded_latest offset store userId now0 now1 random (some p) hempty hday
    have hp1 : p ≠ "" := by
      intro h; subst h; exact absurd hp (by decide)
    have hp2 : p ≠ "all" := by
      intro h; subst h; exact absurd hp (by decide)
    have hnd : (seedTypes.map (fun t => (⟨p, t⟩ : GroupId))).Nodup := by
      apply List.Nodup.map
      · intro a b hab
        exact congrArg GroupId.metricType hab
      · decide
    have hperm : ((latestMetrics
        (seedMetrics (TimeZone.fixed offset) store userId now0 random).2 userId (some p)
          now1).map (fun g => g._id)).Perm
        (seedTypes.map (fun t => (⟨p, t⟩ : GroupId))) := by
      have hndL : ((latestMetrics
          (seedMetrics (TimeZone.fixed offset) store userId now0 random).2 userId (some p)
            now1).map (fun g => g._id)).Nodup := (groupFirst_keys [] _).1
      refine (List.perm_ext_iff_of_nodup hndL hnd).mpr ?_
      intro k
      constructor
      · intro hk
        obtain ⟨g, hg, rfl⟩ := List.mem_map.mp hk
        obtain ⟨m, hm, hgm, hq⟩ := h1 g hg
        have hmp : m.provider = p := by
          rcases hq with h | h | h | h
          · exact absurd h (by simp)
          · exact absurd (Option.some.inj h) hp1
          · exact absurd (Option.some.inj h) hp2
          · exact (Option.some.inj h).symm
        have hmk : (m.provider, m.metricType) ∈ List.product providers seedTypes := by
          rw [← hkeys]
          exact List.mem_map.mpr ⟨m, hm, rfl⟩
        have hmt : m.metricType ∈ seedTypes := (List.mem_product.mp hmk).2
        refine List.mem_map.mpr ⟨m.metricType, hmt, ?_⟩
        rw [hgm, ← hmp]
        rfl
      · intro hk
        obtain ⟨t, ht, rfl⟩ := List.mem_map.mp hk
        have hpt : (p, t) ∈ List.product providers seedTypes := List.mem_product.mpr ⟨hp, ht⟩
        rw [← hkeys] at hpt
        obtain ⟨m, hm, hmk⟩ := List.mem_map.mp hpt
        have hmp : m.provider = p := congrArg Prod.fst hmk
        have hmt : m.metricType = t := congrArg Prod.snd hmk
        obtain ⟨g, hg, hgid⟩ := h2 m hm (Or.inr (Or.inr (Or.inr (by rw [hmp]))))
        refine List.mem_map.mpr ⟨g, hg, ?_⟩
        rw [hgid]
        simp [Metric.groupId, hmp, hmt]
    refine ⟨_, rfl, ?_, hperm, hcarry (some p)⟩
    have := hperm.length_eq
    rw [List.length_map] at this
    rw [this]
    simp [seedTypes]
  · intro hnoon q d hd g hg hnb
    have hd2 : d = (⟨summarize _, latestMetrics
        (seedMetrics (TimeZone.fixed offset) store userId now0 random).2 userId q now1,
        recentAlerts alerts userId⟩ : Dashboard) := (Option.some.inj hd).symm
    subst hd2
    obtain ⟨m, hm, hgm, -⟩ :=
      (seeded_latest offset store userId now0 now1 random q hempty hday).1 g hg
    have hmt : m.metricType ≠ "billing" := by
      intro h
      apply hnb
      rw [hgm]
      exact h
    have hstamp : TimeWithinDay (LocalTime (TimeZone.fixed offset) m.timestamp) =
        12 * msPerHour := by
      have := seedDay_fixed_stamp offset userId random providers _ _ m hm
      rw [if_neg hmt] at this
      exact this
    have hDm : Day (LocalTime (TimeZone.fixed offset) m.timestamp) =
        Day (LocalTime (TimeZone.fixed offset) now0) := by
      unfold seededToday at hm
      rw [seedDay_fixed_day offset userId random providers _ _ m hm, setDateBack_fixed_day]
      simp
    have hts : g.timestamp = m.timestamp := by rw [hgm]; rfl
    rw [hts]
    exact (fixed_day_facts offset now1 m.timestamp).2.2 (by rw [hDm, hday])
      (by rw [hstamp]; exact hnoon)

/-- C28 at a concrete call in UTC: seeded at 08:00 of a day and read at 09:00
of the same day, the dashboard has 24 entries, 6 for aws alone, and the cpu
entries are stamped at noon, after the request. -/
theorem seeded_dashboard_same_day_witness :
    Day (LocalTime (TimeZone.fixed 0) (86400000 * 100 + 9 * 3600000)) =
      Day (LocalTime (TimeZone.fixed 0) (86400000 * 100 + 8 * 3600000)) ∧
    (∃ d, (getDashboard (seedMetrics (TimeZone.fixed 0) [⟨2, "aws", "cpu", 5, "%", "", "", 0⟩] 1
          (86400000 * 100 + 8 * 3600000) (fun _ => mkRat 1 2)).2
          [] 1 none (86400000 * 100 + 9 * 3600000)).data = some d ∧
        d.metrics.length = 24) ∧
    (∃ d, (getDashboard (seedMetrics (TimeZone.fixed 0) [⟨2, "aws", "cpu", 5, "%", "", "", 0⟩] 1
          (86400000 * 100 + 8 * 3600000) (fun _ => mkRat 1 2)).2
          [] 1 (some "aws") (86400000 * 100 + 9 * 3600000)).data = some d ∧
        d.metrics.length = 6 ∧
        ∀ g ∈ d.metrics, g._id.metricType ≠ "billing" →
          86400000 * 100 + 9 * 3600000 < g.timestamp) := by
  have hempty : ∀ m ∈ [(⟨2, "aws", "cpu", 5, "%", "", "", 0⟩ : Metric)], m.userId ≠ 1 := by
    intro m hm
    rw [List.mem_singleton] at hm
    subst hm
    decide
  have h := seeded_dashboard_same_day 0 [⟨2, "aws", "cpu", 5, "%", "", "", 0⟩] [] 1
    (86400000 * 100 + 8 * 3600000) (86400000 * 100 + 9 * 3600000) (fun _ => mkRat 1 2)
    hempty (by decide)
  obtain ⟨d1, hd1, hlen1, -⟩ := h.1 none (Or.inl rfl)
  obtain ⟨d2, hd2, hlen2, -⟩ := h.2.1 "aws" (by decide)
  exact ⟨by decide, ⟨d1, hd1, hlen1⟩, ⟨d2, hd2, hlen2, h.2.2 (by decide) (some "aws") d2 hd2⟩⟩

end CloudMonitor
